import Mathlib

/-!
Verification development for the `solarwinds_ansible` collection.

The Python sources under `plugins/` are shallowly embedded here:
pure helpers become Lean functions, Python dictionaries become ordered
association lists, a raised exception becomes an `Except`-style error
value, and the Ansible module's `fail_json` / `exit_json` terminations
become explicit outcome constructors.  The remote SolarWinds client is
modelled by the responses it would return to each query/invoke call; the
SQL text actually sent, and the bound parameters passed alongside it,
are recorded so that theorems can speak about what reaches the client.
-/

namespace SolarWinds

/-- Model of the Python values that appear in rows, module parameters and
filter criteria: strings, integers, booleans and `None`. -/
inductive PyVal where
  | str (s : String)
  | int (n : Int)
  | bool (b : Bool)
  | none
deriving DecidableEq, Repr

/-- Python `str()` of a scalar value (`str` maps a string to itself,
`True`/`False` for booleans, decimal digits for integers, `None`). -/
def PyVal.pyStr : PyVal → String
  | .str s => s
  | .int n => toString n
  | .bool b => if b then "True" else "False"
  | .none => "None"

/-- Python `repr()` of a scalar value (strings quoted). -/
def PyVal.pyRepr : PyVal → String
  | .str s => "'" ++ s ++ "'"
  | .int n => toString n
  | .bool b => if b then "True" else "False"
  | .none => "None"

/-- A Python dictionary with string keys, kept in insertion order. -/
abbrev PyDict (α : Type) := List (String × α)

/-- A result row returned by the information-service client. -/
abbrev Row := PyDict PyVal

/-- Case-sensitive dictionary lookup, `d[k]`; `Option.none` models the
`KeyError` raised when the key is absent. -/
def pyGet {α : Type} (d : PyDict α) (k : String) : Option α :=
  (d.filter (fun p => p.1 = k)).head?.map (fun p => p.2)

/-- `d[k] = v` on a Python dictionary: replaces the value of an existing
key in place, otherwise appends the new key at the end. -/
def dictSet {α : Type} (d : PyDict α) (k : String) (v : α) : PyDict α :=
  if (d.filter (fun p => p.1 = k)).isEmpty then d ++ [(k, v)]
  else d.map (fun p => if p.1 = k then (k, v) else p)

/-- `k in d` on a Python dictionary. -/
def dictHasKey {α : Type} (d : PyDict α) (k : String) : Bool :=
  !(d.filter (fun p => p.1 = k)).isEmpty

/-- ASCII lowercasing of one character (Python `str.lower()` restricted
to the ASCII identifiers this schema uses). -/
def charLower (c : Char) : Char :=
  if 65 <= c.toNat && c.toNat <= 90 then Char.ofNat (c.toNat + 32) else c

/-- Python `str.lower()` (ASCII), defined so that it evaluates by
kernel reduction. -/
def pyLower (s : String) : String := String.mk (s.data.map charLower)

/-- `case_insensitive_key` from `solarwinds_query.py`: the values of
every key equal to `k` ignoring letter case, in dictionary order. -/
def case_insensitive_key {α : Type} (d : PyDict α) (k : String) : List α :=
  (d.filter (fun p => pyLower p.1 = pyLower k)).map (fun p => p.2)

/-- Python `list(set(xs))` for strings.  CPython's iteration order over a
set is unspecified; the model keeps the first occurrence of each element
in input order, which is one admissible order. -/
def pySet (xs : List String) : List String := xs.eraseDups

/-- Comma-space joining (recursive, so that proofs can peel elements). -/
def joinComma : List String → String
  | [] => ""
  | [x] => x
  | x :: rest => x ++ ", " ++ joinComma rest

/-- Python `str()` of a list of strings, e.g. `['a', 'b']`. -/
def pyStrListOfStrings (xs : List String) : String :=
  "[" ++ joinComma (xs.map (fun s => "'" ++ s ++ "'")) ++ "]"

/-! ### Substring containment

Boolean substring search used to state that a failure message names a
table, or that a criterion appears verbatim inside a SQL string. -/

/-- `needle` starts `l` (leading-run test over character lists). -/
def isPre : List Char → List Char → Bool
  | [], _ => true
  | _ :: _, [] => false
  | a :: as, b :: bs => a = b && isPre as bs

/-- `needle` occurs as a contiguous run inside `l`. -/
def infixB (needle : List Char) : List Char → Bool
  | [] => needle.isEmpty
  | a :: t => isPre needle (a :: t) || infixB needle t

/-- `needle` occurs as a contiguous substring of `hay`. -/
def strContains (hay needle : String) : Bool :=
  infixB needle.data hay.data

/-! ### `sql_query_builder.py`

`SQLQueryBuilder` keeps, for each SQL keyword, a flag and an ordered list
of items (`_Thing`s).  `str()` renders the collected items; an item may
carry a "fake" keyword such as `INNER JOIN` that is emitted before it. -/

/-- `_Thing` from `sql_query_builder.py`: a rendered item.  The
`is_subquery` field of the source is omitted: it is only set for the
`WITH` keyword, which is absent from the builder's initial keyword set,
so `add("WITH", ...)` raises `KeyError` before it could be used. -/
structure Thing where
  value : String
  aliasName : String := ""
  keyword : String := ""
deriving DecidableEq, Repr

/-- `_FlagList`: a list of things together with an optional flag. -/
structure FlagList where
  flag : String := ""
  things : List Thing := []
deriving DecidableEq, Repr

namespace SQLQueryBuilder

def keywords : List String :=
  ["SELECT", "FROM", "WHERE", "GROUP BY", "HAVING", "ORDER BY"]

def separators : PyDict String := [("WHERE", "AND"), ("HAVING", "AND")]

def default_separator : String := ","

/-- The builder state: the insertion-ordered `data` dictionary. -/
abbrev Data := PyDict FlagList

/-- `SQLQueryBuilder()` with no arguments: one empty item list per
keyword. -/
def init : Data := keywords.map (fun k => (k, {}))

def isWsp (c : Char) : Bool := c = ' ' || c = '\t' || c = '\n' || c = '\r'

/-- `_clean_up`: `textwrap.dedent(thing.rstrip()).strip()`.  On the
single-line strings this collection feeds the builder, `dedent` is the
identity and the composition strips surrounding whitespace. -/
def clean_up (s : String) : String :=
  String.mk (((s.data.dropWhile isWsp).reverse.dropWhile isWsp).reverse)

/-- Split a character list at its first space. -/
def splitAtSpace : List Char → List Char × Option (List Char)
  | [] => ([], Option.none)
  | ' ' :: rest => ([], Option.some rest)
  | c :: rest =>
      let p := splitAtSpace rest
      (c :: p.1, p.2)

/-- `str.partition(" ")` restricted to what `_resolve_flags` needs: the
text before the first space and the text after it (empty when the string
has no space). -/
def partitionSpace (s : String) : String × String :=
  match splitAtSpace s.data with
  | (a, Option.none) => (String.mk a, "")
  | (a, Option.some b) => (String.mk a, String.mk b)

/-- `_resolve_fakes`: a keyword containing `JOIN` is stored under `FROM`
and kept as the item's fake keyword. -/
def resolve_fakes (keyword : String) : String × String :=
  if strContains keyword "JOIN" then ("FROM", keyword) else (keyword, "")

/-- `_resolve_flags`: `SELECT DISTINCT` / `SELECT ALL` split into keyword
and flag; an unknown flag raises `ValueError`. -/
def resolve_flags (keyword : String) : Except String (String × String) :=
  let (pre, flag) := partitionSpace keyword
  if pre = "SELECT" then
    if flag ≠ "" ∧ flag ≠ "DISTINCT" ∧ flag ≠ "ALL" then
      .error ("invalid flag for " ++ pre ++ ": " ++ flag)
    else .ok (pre, flag)
  else .ok (keyword, "")

/-- `add(keyword, *args)` for string arguments (the only argument shape
this collection uses).  Raised `KeyError`/`ValueError` become `.error`. -/
def add (data : Data) (keyword : String) (args : List String) :
    Except String Data := do
  let (kw1, fake) := resolve_fakes keyword
  let (kw2, flag) ← resolve_flags kw1
  match pyGet data kw2 with
  | Option.none => .error ("KeyError: " ++ kw2)
  | Option.some target => do
    let target ←
      if flag ≠ "" then
        if target.flag ≠ "" then
          .error (kw2 ++ " already has flag: " ++ target.flag)
        else pure { target with flag := flag }
      else pure target
    let newThings :=
      args.map (fun a => Thing.mk (clean_up a) "" fake)
    pure (dictSet data kw2 { target with things := target.things ++ newThings })

/-- The formatted content of one item (`formats` applied to value and
alias). -/
def renderThing (keyword : String) (t : Thing) : String :=
  if t.aliasName = "" then t.value
  else if keyword = "WITH" then t.aliasName ++ " AS " ++ t.value
  else t.value ++ " AS " ++ t.aliasName

/-- `_parts_keyword`: render one group of items under a keyword, emitting
each item's fake keyword before it and a separator after every
non-keyword item except the last of the group. -/
def partsKeyword (keyword : String) : List Thing → List String
  | [] => []
  | [t] => (if t.keyword = "" then [] else [t.keyword]) ++ [renderThing keyword t]
  | t :: t2 :: rest =>
      (if t.keyword = "" then [] else [t.keyword]) ++
      (if t.keyword = "" then
        match pyGet separators keyword with
        | Option.some sep => [renderThing keyword t ++ " " ++ sep]
        | Option.none => [renderThing keyword t ++ default_separator]
      else [renderThing keyword t]) ++
      partsKeyword keyword (t2 :: rest)

/-- `_parts`: keywords with no items are skipped; otherwise the keyword
(with its flag, if set) is followed by the non-keyword items and then the
fake-keyword items. -/
def parts (data : Data) : List String :=
  (data.map (fun p =>
    let kw := p.1
    let fl := p.2
    if fl.things.isEmpty then []
    else
      (if fl.flag = "" then [kw] else [kw ++ " " ++ fl.flag]) ++
      partsKeyword kw (fl.things.filter (fun t => t.keyword = "")) ++
      partsKeyword kw (fl.things.filter (fun t => !(t.keyword = ""))))).flatten

/-- `__str__`. -/
def render (data : Data) : String := String.intercalate " " (parts data)

end SQLQueryBuilder

/-- The joining rule as the specification sentence describes it: under
`WHERE` or `HAVING` every item but the last is followed by the separator
(as `item AND`), under any other keyword a comma is appended directly to
every item but the last, and the last item stands alone. -/
def partsKeywordSpec (keyword : String) : List Thing → List String
  | [] => []
  | [t] => [SQLQueryBuilder.renderThing keyword t]
  | t :: t2 :: rest =>
      (SQLQueryBuilder.renderThing keyword t ++
        (if keyword = "WHERE" ∨ keyword = "HAVING" then " AND" else ",")) ::
      partsKeywordSpec keyword (t2 :: rest)

/-! ### `SolarWindsEntityAlias` and the `SolarWindsQuery` input setters -/

/-- The members of the `SolarWindsEntityAlias` enum, in declaration
order: friendly alias name to vendor entity name. -/
def SolarWindsEntityAlias : PyDict String :=
  [("Agents", "Orion.AgentManagement.Agent"),
   ("CustomProperties", "Orion.NodesCustomProperties"),
   ("Engines", "Orion.Engines"),
   ("Nodes", "Orion.Nodes"),
   ("PollingEngines", "Orion.Engines"),
   ("Volumes", "Orion.Volumes")]

/-- `SolarWindsEntityAlias.from_alias_case_insensitive`: the value of the
first member whose name equals the argument ignoring case;
`Option.none` models the `IndexError` raised when no member matches. -/
def from_alias_case_insensitive (aliasName : String) : Option String :=
  ((SolarWindsEntityAlias.filter
      (fun m => pyLower m.1 = pyLower aliasName)).map (fun m => m.2)).head?

/-- The `base_table` setter: resolve the alias, and on the exception keep
the input unchanged. -/
def base_table_setter (value : String) : String :=
  (from_alias_case_insensitive value).getD value

/-- The common body of the `input_include`, `input_exclude` and
`input_columns` setters: rebuild the dictionary with each table key
alias-resolved (kept unchanged when no alias matches). -/
def input_tables_setter {α : Type} (value : PyDict α) : PyDict α :=
  value.foldl (fun d p => dictSet d (base_table_setter p.1) p.2) []

def input_include_setter {α : Type} (value : PyDict α) : PyDict α :=
  input_tables_setter value

def input_exclude_setter {α : Type} (value : PyDict α) : PyDict α :=
  input_tables_setter value

def input_columns_setter {α : Type} (value : PyDict α) : PyDict α :=
  input_tables_setter value

/-! ### A model of CPython `datetime`

Only what the modules use: `fromisoformat`, `isoformat`, `now(utc)`,
`astimezone`, `timedelta(days=1)` and `str()`.  Offsets are minutes east
of UTC; a missing offset models a naive datetime. -/

structure PyDateTime where
  year : Int
  month : Nat
  day : Nat
  hour : Nat := 0
  minute : Nat := 0
  second : Nat := 0
  microsecond : Nat := 0
  offsetMinutes : Option Int := Option.none
deriving DecidableEq, Repr

/-- Days since 1970-01-01 of a civil date (Hinnant's algorithm). -/
def daysFromCivil (y : Int) (m d : Nat) : Int :=
  let y' : Int := y - (if m <= 2 then 1 else 0)
  let era : Int := Int.fdiv y' 400
  let yoe : Nat := (y' - era * 400).toNat
  let mp : Nat := if m > 2 then m - 3 else m + 9
  let doy : Nat := (153 * mp + 2) / 5 + d - 1
  let doe : Nat := yoe * 365 + yoe / 4 - yoe / 100 + doy
  era * 146097 + (doe : Int) - 719468

/-- Civil date of a count of days since 1970-01-01 (Hinnant's inverse). -/
def civilFromDays (z : Int) : Int × Nat × Nat :=
  let z' : Int := z + 719468
  let era : Int := Int.fdiv z' 146097
  let doe : Nat := (z' - era * 146097).toNat
  let yoe : Nat := (doe - doe / 1460 + doe / 36524 - doe / 146096) / 365
  let doy : Nat := doe - (365 * yoe + yoe / 4 - yoe / 100)
  let mp : Nat := (5 * doy + 2) / 153
  let d : Nat := doy - (153 * mp + 2) / 5 + 1
  let m : Nat := if mp < 10 then mp + 3 else mp - 9
  ((yoe : Int) + era * 400 + (if m <= 2 then 1 else 0), m, d)

/-- Seconds since the epoch, interpreting a naive value at `assumed`
minutes east of UTC. -/
def PyDateTime.toEpochSec (dt : PyDateTime) (assumed : Int) : Int :=
  let off := dt.offsetMinutes.getD assumed
  daysFromCivil dt.year dt.month dt.day * 86400 +
    (dt.hour : Int) * 3600 + (dt.minute : Int) * 60 + (dt.second : Int) -
    off * 60

/-- The aware datetime at `epoch` seconds, rendered at `target` minutes
east of UTC (microseconds carried through unchanged). -/
def pyDateTimeOfEpoch (epoch : Int) (target : Int) (micro : Nat) : PyDateTime :=
  let shifted := epoch + target * 60
  let days := Int.fdiv shifted 86400
  let rem : Nat := (shifted - days * 86400).toNat
  let (y, m, d) := civilFromDays days
  { year := y, month := m, day := d,
    hour := rem / 3600, minute := rem % 3600 / 60, second := rem % 60,
    microsecond := micro, offsetMinutes := Option.some target }

/-- `dt.astimezone(tz)`: a naive datetime is assumed to be in the local
timezone (`localOffset`); the result carries the `target` offset. -/
def PyDateTime.astimezone (dt : PyDateTime) (localOffset target : Int) :
    PyDateTime :=
  pyDateTimeOfEpoch (dt.toEpochSec localOffset) target dt.microsecond

/-- `dt + timedelta(days=1)`. -/
def PyDateTime.addOneDay (dt : PyDateTime) : PyDateTime :=
  match dt.offsetMinutes with
  | Option.some off => pyDateTimeOfEpoch (dt.toEpochSec 0 + 86400) off dt.microsecond
  | Option.none =>
      let e := dt.toEpochSec 0 + 86400
      { pyDateTimeOfEpoch e 0 dt.microsecond with offsetMinutes := Option.none }

def natDigits (cs : List Char) : Bool := cs.all (fun c => c.isDigit)

def digitsToNat (cs : List Char) : Nat :=
  cs.foldl (fun acc c => acc * 10 + (c.toNat - 48)) 0

def daysInMonth (y : Int) (m : Nat) : Nat :=
  if m = 2 then
    if Int.fmod y 4 = 0 && (Int.fmod y 100 != 0 || Int.fmod y 400 = 0)
    then 29 else 28
  else if m = 4 || m = 6 || m = 9 || m = 11 then 30
  else 31

/-- The `±HH:MM` trailing offset of an ISO string, if present. -/
def parseOffset (cs : List Char) : Option (Option Int × List Char) :=
  match cs with
  | s :: h1 :: h2 :: ':' :: m1 :: m2 :: [] =>
      if (s = '+' || s = '-') && natDigits [h1, h2, m1, m2] then
        let v : Int := (digitsToNat [h1, h2] * 60 + digitsToNat [m1, m2] : Nat)
        if digitsToNat [h1, h2] < 24 && digitsToNat [m1, m2] < 60 then
          Option.some (Option.some (if s = '-' then -v else v), [])
        else Option.none
      else Option.none
  | [] => Option.some (Option.none, [])
  | _ => Option.none

/-- The `HH:MM[:SS[.ffffff]]` part of an ISO string with its offset. -/
def parseTime (cs : List Char) :
    Option (Nat × Nat × Nat × Nat × Option Int) := do
  match cs with
  | h1 :: h2 :: ':' :: m1 :: m2 :: rest =>
      if !natDigits [h1, h2, m1, m2] then Option.none else
      let h := digitsToNat [h1, h2]
      let mi := digitsToNat [m1, m2]
      if h >= 24 || mi >= 60 then Option.none else
      match rest with
      | ':' :: s1 :: s2 :: rest2 =>
          if !natDigits [s1, s2] then Option.none else
          let sec := digitsToNat [s1, s2]
          if sec >= 60 then Option.none else
          match rest2 with
          | '.' :: rest3 =>
              let frac := rest3.takeWhile (fun c => c.isDigit)
              let rest4 := rest3.dropWhile (fun c => c.isDigit)
              if frac.length != 3 && frac.length != 6 then Option.none else
              let micro :=
                if frac.length = 3 then digitsToNat frac * 1000
                else digitsToNat frac
              let (off, _) ← parseOffset rest4
              Option.some (h, mi, sec, micro, off)
          | _ => do
              let (off, _) ← parseOffset rest2
              Option.some (h, mi, sec, 0, off)
      | _ => do
          let (off, _) ← parseOffset rest
          Option.some (h, mi, 0, 0, off)
  | _ => Option.none

/-- `datetime.fromisoformat` (CPython ≤ 3.10 format: the strict
`isoformat` inverse).  `Option.none` models the raised `ValueError`. -/
def fromisoformat (s : String) : Option PyDateTime := do
  match s.data with
  | y1 :: y2 :: y3 :: y4 :: '-' :: m1 :: m2 :: '-' :: d1 :: d2 :: rest =>
      if !natDigits [y1, y2, y3, y4, m1, m2, d1, d2] then Option.none else
      let y : Int := (digitsToNat [y1, y2, y3, y4] : Nat)
      let mo := digitsToNat [m1, m2]
      let d := digitsToNat [d1, d2]
      if mo < 1 || mo > 12 || d < 1 || d > daysInMonth y mo then Option.none
      else
        match rest with
        | [] => Option.some (PyDateTime.mk y mo d 0 0 0 0 Option.none)
        | _ :: timePart => do
            let (h, mi, sec, micro, off) ← parseTime timePart
            Option.some (PyDateTime.mk y mo d h mi sec micro off)
  | _ => Option.none

def pad2 (n : Nat) : String :=
  if n < 10 then "0" ++ toString n else toString n

def pad4 (y : Int) : String :=
  let n := y.toNat
  if n < 10 then "000" ++ toString n
  else if n < 100 then "00" ++ toString n
  else if n < 1000 then "0" ++ toString n
  else toString n

def pad6 (n : Nat) : String :=
  let s := toString n
  String.mk (List.replicate (6 - s.data.length) '0') ++ s

def offsetSuffix : Option Int → String
  | Option.none => ""
  | Option.some o =>
      (if o < 0 then "-" else "+") ++
        pad2 (o.natAbs / 60) ++ ":" ++ pad2 (o.natAbs % 60)

/-- `dt.isoformat()` (default timespec: seconds always shown,
microseconds only when non-zero). -/
def PyDateTime.isoformat (dt : PyDateTime) : String :=
  pad4 dt.year ++ "-" ++ pad2 dt.month ++ "-" ++ pad2 dt.day ++ "T" ++
    pad2 dt.hour ++ ":" ++ pad2 dt.minute ++ ":" ++ pad2 dt.second ++
    (if dt.microsecond = 0 then "" else "." ++ pad6 dt.microsecond) ++
    offsetSuffix dt.offsetMinutes

/-- `dt.isoformat("T", "minutes")`. -/
def PyDateTime.isoformatMinutes (dt : PyDateTime) : String :=
  pad4 dt.year ++ "-" ++ pad2 dt.month ++ "-" ++ pad2 dt.day ++ "T" ++
    pad2 dt.hour ++ ":" ++ pad2 dt.minute ++ offsetSuffix dt.offsetMinutes

/-- `str(dt)`: `isoformat` with a space separator. -/
def PyDateTime.pyStr (dt : PyDateTime) : String :=
  pad4 dt.year ++ "-" ++ pad2 dt.month ++ "-" ++ pad2 dt.day ++ " " ++
    pad2 dt.hour ++ ":" ++ pad2 dt.minute ++ ":" ++ pad2 dt.second ++
    (if dt.microsecond = 0 then "" else "." ++ pad6 dt.microsecond) ++
    offsetSuffix dt.offsetMinutes

/-! ### A model of `re.match`

`column_filters` calls `re.match(criterion, "[0-9]+")` and
`re.match(criterion, "...guid...")` with the *criterion as the pattern*.
The model implements the regex subset of literals, `.`, character
classes with ranges, and the `*`/`+`/`?` quantifiers; `ReResult.error`
stands for a pattern outside this subset (where CPython would raise
`re.error` for a malformed pattern, or use a construct not modelled). -/

inductive ClassItem where
  | single (c : Char)
  | range (lo hi : Char)
deriving DecidableEq, Repr

inductive ReAtom where
  | lit (c : Char)
  | dot
  | cls (neg : Bool) (items : List ClassItem)
deriving DecidableEq, Repr

inductive ReQuant where
  | one
  | star
  | plus
  | opt
deriving DecidableEq, Repr

def parseClassItems : Nat → List Char → Option (List ClassItem × List Char)
  | _, ']' :: rest => Option.some ([], rest)
  | 0, _ => Option.none
  | Nat.succ fuel, a :: '-' :: b :: rest =>
      if a = '\\' || b = ']' || b = '\\' then Option.none
      else do
        let (items, rest2) ← parseClassItems fuel rest
        Option.some (ClassItem.range a b :: items, rest2)
  | Nat.succ fuel, a :: rest =>
      if a = '\\' then Option.none
      else do
        let (items, rest2) ← parseClassItems fuel rest
        Option.some (ClassItem.single a :: items, rest2)
  | _, [] => Option.none

def reSpecialChars : List Char :=
  ['(', ')', '|', '^', '$', '\\', '{', '}', '*', '+', '?', '[', ']']

def applyQuant (a : ReAtom) : List Char → (ReAtom × ReQuant) × List Char
  | '*' :: rest => ((a, ReQuant.star), rest)
  | '+' :: rest => ((a, ReQuant.plus), rest)
  | '?' :: rest => ((a, ReQuant.opt), rest)
  | rest => ((a, ReQuant.one), rest)

def parseAtoms : Nat → List Char → Option (List (ReAtom × ReQuant))
  | _, [] => Option.some []
  | 0, _ => Option.none
  | Nat.succ fuel, '[' :: rest => do
      let (neg, rest1) :=
        match rest with
        | '^' :: r => (true, r)
        | r => (false, r)
      let (items, rest2) ← parseClassItems rest1.length rest1
      let (aq, rest3) := applyQuant (ReAtom.cls neg items) rest2
      let tail ← parseAtoms fuel rest3
      Option.some (aq :: tail)
  | Nat.succ fuel, '.' :: rest => do
      let (aq, rest2) := applyQuant ReAtom.dot rest
      let tail ← parseAtoms fuel rest2
      Option.some (aq :: tail)
  | Nat.succ fuel, c :: rest =>
      if reSpecialChars.contains c then Option.none
      else do
        let (aq, rest2) := applyQuant (ReAtom.lit c) rest
        let tail ← parseAtoms fuel rest2
        Option.some (aq :: tail)

def matchClassItem (c : Char) : ClassItem → Bool
  | ClassItem.single a => c = a
  | ClassItem.range lo hi => lo.toNat <= c.toNat && c.toNat <= hi.toNat

def matchAtom (a : ReAtom) (c : Char) : Bool :=
  match a with
  | ReAtom.lit x => c = x
  | ReAtom.dot => c != '\n'
  | ReAtom.cls neg items =>
      let m := items.any (matchClassItem c)
      if neg then !m else m

/-- Backtracking matcher: can `ps` match some leading part of `cs`?
The fuel argument strictly exceeds `ps.length + cs.length`, which
decreases on every recursive call. -/
def matchSeq (fuel : Nat) (ps : List (ReAtom × ReQuant)) (cs : List Char) :
    Bool :=
  match fuel with
  | 0 => false
  | Nat.succ fuel =>
    match ps with
    | [] => true
    | (a, q) :: rest =>
      match q with
      | ReQuant.one =>
          match cs with
          | [] => false
          | c :: cs2 => matchAtom a c && matchSeq fuel rest cs2
      | ReQuant.opt =>
          matchSeq fuel rest cs ||
            (match cs with
             | [] => false
             | c :: cs2 => matchAtom a c && matchSeq fuel rest cs2)
      | ReQuant.plus =>
          match cs with
          | [] => false
          | c :: cs2 =>
              matchAtom a c && matchSeq fuel ((a, ReQuant.star) :: rest) cs2
      | ReQuant.star =>
          matchSeq fuel rest cs ||
            (match cs with
             | [] => false
             | c :: cs2 => matchAtom a c && matchSeq fuel ps cs2)

inductive ReResult where
  | matched
  | nomatch
  | error
deriving DecidableEq, Repr

/-- `re.match(pattern, s)`: anchored at the start of `s`, matching any
leading part. -/
def re_match (pattern s : String) : ReResult :=
  match parseAtoms (pattern.data.length + 1) pattern.data with
  | Option.none => ReResult.error
  | Option.some ps =>
      if matchSeq (2 * (ps.length + s.data.length) + 1) ps s.data then
        ReResult.matched
      else ReResult.nomatch

/-! ### `SolarWindsQuery.column_filters` -/

/-- The shape of a filter criterion as received from module arguments: a
`min`/`max` modifier dictionary, a list of criteria, or a scalar. -/
inductive FilterContent where
  | dict (entries : List (String × FilterContent))
  | list (cs : List PyVal)
  | scalar (c : PyVal)

/-- Outcome of `column_filters`: the built list of `(operator, value)`
pairs, the `False` return for an invalid criterion, or an uncaught
exception. -/
inductive CFResult where
  | valid (filters : List (String × PyVal))
  | invalid
  | error (msg : String)
deriving DecidableEq, Repr

def allCFTypes : List String :=
  ["System.String", "System.Type", "System.Guid", "System.DateTime",
   "System.Int16", "System.Int32", "System.Boolean"]

def strCFTypes : List String :=
  ["System.String", "System.Type", "System.Guid", "System.DateTime"]

def PyVal.isStr : PyVal → Bool
  | .str _ => true
  | _ => false

/-- Python `isinstance(x, int)`, which is also true for booleans. -/
def PyVal.isIntLike : PyVal → Bool
  | .int _ => true
  | .bool _ => true
  | _ => false

def PyVal.asStr : PyVal → String
  | .str s => s
  | _ => ""

def guidTestString : String :=
  "[a-z0-9]\x7b8\x7d(-[a-z0-9]\x7b4\x7d)\x7b3\x7d-[a-z0-9]\x7b12\x7d"

/-- The per-criterion loop of `column_filters` (the non-dict branch):
`None` criteria are filtered out by the caller; each criterion either
appends a filter pair, rejects the whole filter (`invalid`), or raises. -/
def cfCriteria (data_type : String) :
    List PyVal → List (String × PyVal) → CFResult
  | [], acc => CFResult.valid acc
  | c :: rest, acc =>
    if !(allCFTypes.contains data_type) then CFResult.invalid
    else if strCFTypes.contains data_type && !c.isStr then CFResult.invalid
    else if data_type = "System.String" then
      cfCriteria data_type rest
        (acc ++ [("LIKE", PyVal.str ("'" ++ c.asStr ++ "'"))])
    else if data_type = "System.Int16" || data_type = "System.Int32" then
      if c.isIntLike then cfCriteria data_type rest (acc ++ [("=", c)])
      else
        match c with
        | PyVal.str s =>
            match re_match s "[0-9]+" with
            | ReResult.matched => cfCriteria data_type rest (acc ++ [("=", c)])
            | ReResult.nomatch => CFResult.invalid
            | ReResult.error => CFResult.error "re.error"
        | _ => CFResult.error "TypeError"
    else if data_type = "System.Guid" then
      match c with
      | PyVal.str s =>
          match re_match s guidTestString with
          | ReResult.matched =>
              cfCriteria data_type rest
                (acc ++ [("=", PyVal.str ("'" ++ s ++ "'"))])
          | ReResult.nomatch => CFResult.invalid
          | ReResult.error => CFResult.error "re.error"
      | _ => CFResult.error "TypeError"
    else if data_type = "System.DateTime" then
      match c with
      | PyVal.str s =>
          if (fromisoformat s).isSome then
            cfCriteria data_type rest
              (acc ++ [("=", PyVal.str ("'" ++ s ++ "'"))])
          else CFResult.invalid
      | _ => CFResult.error "TypeError"
    else if strContains "System.Boolean" data_type then
      match c with
      | PyVal.bool b => cfCriteria data_type rest (acc ++ [("=", PyVal.bool b)])
      | PyVal.str s =>
          if pyLower s = "yes" || pyLower s = "on" || pyLower s = "true" then
            cfCriteria data_type rest (acc ++ [("=", PyVal.bool true)])
          else if pyLower s = "no" || pyLower s = "off" ||
              pyLower s = "false" then
            cfCriteria data_type rest (acc ++ [("=", PyVal.bool false)])
          else CFResult.invalid
      | _ => cfCriteria data_type rest acc
    else CFResult.invalid

mutual

/-- `SolarWindsQuery.column_filters`. -/
def column_filters (data_type : String) : FilterContent → CFResult
  | FilterContent.dict entries => cfDict data_type entries []
  | FilterContent.list cs =>
      cfCriteria data_type (cs.filter (fun c => c ≠ PyVal.none)) []
  | FilterContent.scalar c =>
      cfCriteria data_type ([c].filter (fun x => x ≠ PyVal.none)) []

/-- The modifier-dictionary loop of `column_filters`: only `min`/`max`
keys are accepted; a falsy recursive result rejects the filter; the first
recursive filter's value is appended with `>=` or `<=`. -/
def cfDict (data_type : String) :
    List (String × FilterContent) → List (String × PyVal) → CFResult
  | [], acc => CFResult.valid acc
  | (key, content) :: rest, acc =>
      if key = "max" || key = "min" then
        match column_filters data_type content with
        | CFResult.error e => CFResult.error e
        | CFResult.invalid => CFResult.invalid
        | CFResult.valid [] => CFResult.invalid
        | CFResult.valid (f :: _) =>
            let modifier := if key = "min" then ">=" else "<="
            cfDict data_type rest (acc ++ [(modifier, f.2)])
      else CFResult.invalid

end

/-! ### `SolarWindsQuery.relations`, `metadata` pieces and `execute`

`execute` is embedded from `metadata = self.metadata()` onward, with the
computed metadata dictionary and the resolved `_include` / `_exclude`
filters as inputs; `relations` (called from `metadata`) is embedded
separately.  Of each `Metadata.Property` row, `execute` reads only the
`Type` field, so the `properties` table is modelled as the mapping
table → column → declared type. -/

/-- A `Metadata.Relationship` result row (the four fields `relations` and
`execute` read; the cardinality columns of the query are never used). -/
structure RelRow where
  SourceType : String
  TargetType : String
  SourcePrimaryKeyNames : List String
  SourceForeignKeyNames : List String
deriving DecidableEq, Repr

/-- The message of the exception raised inside `relations` when some
supplemental table has no relationship row. -/
def noRelationshipMsg (base : String) (unmatched : List String) : String :=
  "No relationship found between entities '" ++ base ++ "' and " ++
    pyStrListOfStrings unmatched

/-- The `fail_json` message of `relations`. -/
def relationsFailMsg (base : String) (suppl : List String) (ex : String) :
    String :=
  "Failed to retrieve table relationships between '" ++ base ++ "' and " ++
    pyStrListOfStrings suppl ++ ": " ++ ex

/-- `SolarWindsQuery.relations`: with no supplemental tables, return an
empty relation set without querying; otherwise key the relationship rows
by `TargetType`, and fail via `fail_json` when the client raised or when
some supplemental table has no row keyed to it. -/
def relations (base_table : String) (suppl_tables : List String)
    (relationsRes : Except String (List RelRow)) :
    Except String (PyDict RelRow) :=
  if suppl_tables.isEmpty then Except.ok []
  else
    match relationsRes with
    | Except.error ex =>
        Except.error (relationsFailMsg base_table suppl_tables ex)
    | Except.ok rows =>
        let table_relations : PyDict RelRow :=
          rows.foldl (fun d r => dictSet d r.TargetType r) []
        let unmatched :=
          suppl_tables.filter (fun t => !(dictHasKey table_relations t))
        if !unmatched.isEmpty then
          Except.error (relationsFailMsg base_table suppl_tables
            (noRelationshipMsg base_table unmatched))
        else Except.ok table_relations

/-- The `metadata` dictionary as `execute` consumes it. -/
structure Metadata where
  all_tables : List String
  aliases : PyDict String
  base_table : String
  join_columns : PyDict (List String)
  joined_tables : List String
  suppl_tables : List String
  projected_columns : PyDict (List String)
  propertyTypes : PyDict (PyDict String)
  relations : PyDict RelRow

/-- A module failure: `fail_json` termination, or an exception the module
never catches. -/
inductive Failure where
  | failJson (msg : String)
  | uncaught (msg : String)
deriving DecidableEq, Repr

/-- One `client.query` call: the SQL text and the bound parameters. -/
structure ClientCall where
  sql : String
  params : PyDict PyVal
deriving DecidableEq, Repr

/-- Values of an output row: a scalar, or a nested list of joined rows. -/
inductive JVal where
  | prim (v : PyVal)
  | table (rows : List Row)
deriving DecidableEq, Repr

abbrev NestedRow := PyDict JVal

/-- `data` in the returned info: `{}` when the base response has no
`results` key, otherwise the nested rows. -/
inductive DataOut where
  | emptyDict
  | rows (rs : List NestedRow)
deriving DecidableEq, Repr

structure Info where
  data : DataOut
  count : Nat
  queries : String
deriving DecidableEq, Repr

deriving instance DecidableEq for Except

structure ExecOutcome where
  result : Except Failure Info
  calls : List ClientCall
deriving DecidableEq, Repr

/-- Responses the client would give to the data queries `execute` issues:
the base query and one query per supplemental table.  `Option.none`
inside `ok` models a response dictionary without a `results` key. -/
structure DataResponses where
  baseRes : Except String (Option (List Row))
  supplRes : String → Except String (Option (List Row))

/-- Dictionary access `d[k]` raising `KeyError`. -/
def pyGetE {α : Type} (d : PyDict α) (k : String) : Except Failure α :=
  match pyGet d k with
  | Option.some v => Except.ok v
  | Option.none => Except.error (Failure.uncaught ("KeyError: " ++ k))

/-- List indexing `l[i]` raising `IndexError`. -/
def pyIndexE {α : Type} (l : List α) (i : Nat) : Except Failure α :=
  match l.get? i with
  | Option.some v => Except.ok v
  | Option.none => Except.error (Failure.uncaught "list index out of range")

/-- A builder error (`KeyError`/`ValueError` from `add`) propagates
uncaught. -/
def liftAdd (r : Except String SQLQueryBuilder.Data) :
    Except Failure SQLQueryBuilder.Data :=
  match r with
  | Except.ok d => Except.ok d
  | Except.error e => Except.error (Failure.uncaught e)

/-- `" ".join` with `"OR "` prepended to every element but the first. -/
def orJoin (parts : List String) : String :=
  String.intercalate " "
    (parts.enum.map (fun p => (if p.1 > 0 then "OR " else "") ++ p.2))

/-- `" AND ".join`-style concatenation used for join conditions
(`" AND "` prepended to every element but the first, then `"".join`). -/
def andJoin (parts : List String) : String :=
  String.join (parts.enum.map (fun p => (if p.1 > 0 then " AND " else "") ++ p.2))

mutual

/-- Python `str()` of a filter criterion (`str` of a dict or list uses
`repr` of the elements). -/
def FilterContent.pyStr : FilterContent → String
  | FilterContent.scalar c => c.pyStr
  | FilterContent.list cs =>
      "[" ++ String.intercalate ", " (cs.map PyVal.pyRepr) ++ "]"
  | FilterContent.dict entries => "\x7b" ++ fcEntriesStr entries ++ "\x7d"

def fcEntriesStr : List (String × FilterContent) → String
  | [] => ""
  | [p] => "'" ++ p.1 ++ "': " ++ p.2.pyStr
  | p :: rest => "'" ++ p.1 ++ "': " ++ p.2.pyStr ++ ", " ++ fcEntriesStr rest

end

/-- The `fail_json` message for an invalid filter criterion. -/
def filterInvalidMsg (fc : FilterContent) (table column data_type : String) :
    String :=
  "Filter criteria '" ++ fc.pyStr ++ "' not valid for property '" ++ table ++
    "." ++ column ++ "' with data type of '" ++ data_type ++ "'"

/-- Add the include/exclude `WHERE` clauses of one table's filters to the
query (`negate` selects the `NOT (...)` exclude form). -/
def addFilterClauses (md : Metadata) (negate : Bool) (table : String)
    (cols : PyDict FilterContent) (q : SQLQueryBuilder.Data) :
    Except Failure SQLQueryBuilder.Data := do
  let al ← pyGetE md.aliases table
  cols.foldlM (fun q p => do
    let (column, filter_content) := p
    let types ← pyGetE md.propertyTypes table
    let data_type ← pyGetE types column
    match column_filters data_type filter_content with
    | CFResult.error e => Except.error (Failure.uncaught e)
    | CFResult.invalid =>
        Except.error (Failure.failJson
          (filterInvalidMsg filter_content table column data_type))
    | CFResult.valid [] =>
        Except.error (Failure.failJson
          (filterInvalidMsg filter_content table column data_type))
    | CFResult.valid fs =>
        let sql := orJoin (fs.map (fun c =>
          al ++ "." ++ column ++ " " ++ c.1 ++ " " ++ c.2.pyStr))
        liftAdd (SQLQueryBuilder.add q "WHERE"
          [(if negate then "NOT (" else "(") ++ sql ++ ")"])) q

/-- Lines 523–609 of `solarwinds_query.py`: the base query with its
SELECT/FROM, the INNER JOINs for joined tables, and the include and
exclude filter clauses. -/
def buildBaseQuery (md : Metadata)
    (incl excl : PyDict (PyDict FilterContent)) :
    Except Failure SQLQueryBuilder.Data := do
  let baseAlias ← pyGetE md.aliases md.base_table
  let pc ← pyGetE md.projected_columns md.base_table
  let jc ← pyGetE md.join_columns md.base_table
  let selArgs := pySet ((pc ++ jc).map (fun c => baseAlias ++ "." ++ c))
  let q ← liftAdd (SQLQueryBuilder.add SQLQueryBuilder.init "SELECT" selArgs)
  let q ← liftAdd (SQLQueryBuilder.add q "FROM"
    [md.base_table ++ " AS " ++ baseAlias])
  let q ← md.joined_tables.foldlM (fun q table => do
    let table_relation ← pyGetE md.relations table
    let source_type := table_relation.SourceType
    let target_type := table_relation.TargetType
    let al ← pyGetE md.aliases table
    let targetAlias ← pyGetE md.aliases target_type
    let sourceAlias ← pyGetE md.aliases source_type
    let conds ← (List.range table_relation.SourceForeignKeyNames.length).mapM
      (fun i => do
        let fk ← pyIndexE table_relation.SourceForeignKeyNames i
        let pk ← pyIndexE table_relation.SourcePrimaryKeyNames i
        pure (targetAlias ++ "." ++ fk ++ " = " ++ sourceAlias ++ "." ++ pk))
    liftAdd (SQLQueryBuilder.add q "INNER JOIN"
      [table ++ " AS " ++ al ++ " ON " ++ andJoin conds])) q
  let q ← (md.all_tables.filter (fun t => dictHasKey incl t)).foldlM
    (fun q table => do
      let cols ← pyGetE incl table
      addFilterClauses md false table cols q) q
  (md.all_tables.filter (fun t => dictHasKey excl t)).foldlM
    (fun q table => do
      let cols ← pyGetE excl table
      addFilterClauses md true table cols q) q

def baseQueryFailMsg (base sql ex : String) : String :=
  "Query for base table '" ++ base ++ "' failed. Query: '" ++ sql ++
    "'. Exception: " ++ ex

def supplQueryFailMsg (t sql ex : String) : String :=
  "Join query for supplemental table '" ++ t ++ "' failed. Query: '" ++
    sql ++ "'. Exception: " ++ ex

def fkLookupMsg (k : Nat) (base t ex : String) : String :=
  "Failed to look up foreign key [" ++ toString k ++
    "] to join base table '" ++ base ++ "' to supplemental table '" ++ t ++
    "' : " ++ ex

def pkLookupMsg (k : Nat) (t base ex : String) : String :=
  "Failed to look up primary key [" ++ toString k ++
    "] to join data from supplemental table '" ++ t ++
    "' back to base table '" ++ base ++ "' : " ++ ex

/-- Association-list update with arbitrary decidable keys (Python dict
with tuple keys). -/
def assocSet {κ α : Type} [DecidableEq κ] (d : List (κ × α)) (k : κ)
    (v : α) : List (κ × α) :=
  if (d.filter (fun p => p.1 = k)).isEmpty then d ++ [(k, v)]
  else d.map (fun p => if p.1 = k then (k, v) else p)

/-- The per-table index of supplemental rows, keyed by key-string tuple. -/
abbrev TupIndex := List (List String × List Row)

def tupGet (d : TupIndex) (k : List String) : Option (List Row) :=
  (d.filter (fun p => p.1 = k)).head?.map (fun p => p.2)

/-- `SolarWindsEntityAlias(value).name` with the `except` fallback to the
value itself; Python returns the first (canonical) member of that value. -/
def entityNameOfValue (v : String) : Option String :=
  (SolarWindsEntityAlias.filter (fun m => m.2 = v)).head?.map (fun m => m.1)

def supplTableName (t : String) : String := (entityNameOfValue t).getD t

/-- Lines 643–695: the supplemental query for one table — SELECT/FROM
plus one `key IN (...)` WHERE clause per source primary key, where the
key sets are collected from the base rows (a failed lookup is caught and
becomes `fail_json`). -/
def buildSupplQuery (md : Metadata) (t : String) (relation : RelRow)
    (baseRows : List Row) : Except Failure SQLQueryBuilder.Data := do
  let al ← pyGetE md.aliases t
  let target_alias ← pyGetE md.aliases relation.TargetType
  let pc ← pyGetE md.projected_columns t
  let jc ← pyGetE md.join_columns t
  let q ← liftAdd (SQLQueryBuilder.add SQLQueryBuilder.init "SELECT"
    (pySet ((pc ++ jc).map (fun c => al ++ "." ++ c))))
  let q ← liftAdd (SQLQueryBuilder.add q "FROM" [t ++ " AS " ++ al])
  (List.range relation.SourcePrimaryKeyNames.length).foldlM (fun q k => do
    let keySet ←
      match relation.SourceForeignKeyNames.get? k with
      | Option.none =>
          Except.error (Failure.failJson
            (fkLookupMsg (k + 1) md.base_table t "list index out of range"))
      | Option.some fk => do
          let vals ← baseRows.mapM (fun r =>
            match (case_insensitive_key r fk).head? with
            | Option.some v => Except.ok (PyVal.pyStr v)
            | Option.none =>
                Except.error (Failure.failJson (fkLookupMsg (k + 1)
                  md.base_table t "list index out of range")))
          pure (pySet vals)
    let fk ← pyIndexE relation.SourceForeignKeyNames k
    liftAdd (SQLQueryBuilder.add q "WHERE"
      [target_alias ++ "." ++ fk ++ " IN (" ++
        String.intercalate ", " keySet ++ ")"])) q

/-- Lines 709–733: index the supplemental rows by the string tuple of
their source-primary-key values (a failed lookup is caught and becomes
`fail_json`). -/
def indexSupplRows (md : Metadata) (t : String) (relation : RelRow)
    (rows : List Row) : Except Failure TupIndex :=
  rows.foldlM (fun idx r => do
    let keys ← (List.range relation.SourcePrimaryKeyNames.length).mapM
      (fun k => do
        let pk ← pyIndexE relation.SourcePrimaryKeyNames k
        match (case_insensitive_key r pk).head? with
        | Option.some v => Except.ok (PyVal.pyStr v)
        | Option.none =>
            Except.error (Failure.failJson (pkLookupMsg (k + 1) t
              md.base_table "list index out of range")))
    let cur := (tupGet idx keys).getD []
    pure (assocSet idx keys (cur ++ [r]))) []

/-- Lines 636–733: query and index each eligible supplemental table in
turn, recording the calls issued. -/
def processSuppl (md : Metadata) (resp : DataResponses)
    (baseRows : List Row) :
    List String → List ClientCall → PyDict TupIndex →
    List ClientCall × Except Failure (PyDict TupIndex)
  | [], calls, idx => (calls, Except.ok idx)
  | t :: rest, calls, idx =>
    match pyGetE md.relations t with
    | Except.error f => (calls, Except.error f)
    | Except.ok relation =>
      match buildSupplQuery md t relation baseRows with
      | Except.error f => (calls, Except.error f)
      | Except.ok q =>
        let sql := SQLQueryBuilder.render q
        let calls := calls ++ [ClientCall.mk sql []]
        match resp.supplRes t with
        | Except.error ex =>
            (calls, Except.error (Failure.failJson
              (supplQueryFailMsg t sql ex)))
        | Except.ok Option.none =>
            (calls, Except.error (Failure.uncaught "KeyError: results"))
        | Except.ok (Option.some rows) =>
          match indexSupplRows md t relation rows with
          | Except.error f => (calls, Except.error f)
          | Except.ok tidx =>
              processSuppl md resp baseRows rest calls (dictSet idx t tidx)

/-- Lines 735–764 for one base row: for every joined table, look up the
base row's key tuple and attach the matching indexed rows.  The source
reads the loop variable `suppl_table` of the *earlier* loop here — not
`joined_table` — so the index consulted, and the output key written, both
come from `lastSuppl`, the last processed supplemental table. -/
def nestOne (md : Metadata) (eligible : List String) (lastSuppl : String)
    (idx : PyDict TupIndex) (baseRow : Row) (dataRow : NestedRow) :
    Except Failure NestedRow :=
  eligible.foldlM (fun dRow jt => do
    let relation ← pyGetE md.relations jt
    let keys ← (List.range relation.SourcePrimaryKeyNames.length).mapM
      (fun k => do
        let pk ← pyIndexE relation.SourcePrimaryKeyNames k
        match (case_insensitive_key baseRow pk).head? with
        | Option.some v => Except.ok (PyVal.pyStr v)
        | Option.none =>
            Except.error (Failure.uncaught "list index out of range"))
    let name := supplTableName lastSuppl
    let tIdx ← pyGetE idx lastSuppl
    match tupGet tIdx keys with
    | Option.none => Except.ok dRow
    | Option.some rows => do
        let pcols ← pyGetE md.projected_columns jt
        let restricted :=
          rows.map (fun r => r.filter (fun p => pcols.contains p.1))
        Except.ok (dictSet dRow name (JVal.table restricted))) dataRow

/-- `SolarWindsQuery.execute` from `metadata = self.metadata()` onward:
build and issue the base query, reassemble the rows, issue one query per
eligible supplemental table, and nest the joined rows. -/
def executeFromMetadata (md : Metadata)
    (incl excl : PyDict (PyDict FilterContent)) (resp : DataResponses) :
    ExecOutcome :=
  match buildBaseQuery md incl excl with
  | Except.error f => ExecOutcome.mk (Except.error f) []
  | Except.ok q =>
    let sql := SQLQueryBuilder.render q
    let calls := [ClientCall.mk sql []]
    match resp.baseRes with
    | Except.error ex =>
        ExecOutcome.mk (Except.error (Failure.failJson
          (baseQueryFailMsg md.base_table sql ex))) calls
    | Except.ok Option.none =>
        ExecOutcome.mk (Except.ok (Info.mk DataOut.emptyDict 0
          (pyStrListOfStrings (calls.map (fun c => c.sql))))) calls
    | Except.ok (Option.some baseRows) =>
      match pyGetE md.projected_columns md.base_table with
      | Except.error f => ExecOutcome.mk (Except.error f) calls
      | Except.ok basePcols =>
        let data0 : List NestedRow := baseRows.map (fun r =>
          (r.filter (fun p => basePcols.contains p.1)).map
            (fun p => (p.1, JVal.prim p.2)))
        let eligible := md.suppl_tables.filter (fun t =>
          dictHasKey md.projected_columns t && dictHasKey md.relations t)
        match processSuppl md resp baseRows eligible calls [] with
        | (calls, Except.error f) => ExecOutcome.mk (Except.error f) calls
        | (calls, Except.ok idx) =>
          match eligible.getLast? with
          | Option.none =>
              ExecOutcome.mk (Except.ok (Info.mk (DataOut.rows data0)
                data0.length
                (pyStrListOfStrings (calls.map (fun c => c.sql))))) calls
          | Option.some lastSuppl =>
            match (data0.zip baseRows).mapM (fun pr =>
                nestOne md eligible lastSuppl idx pr.2 pr.1) with
            | Except.error f => ExecOutcome.mk (Except.error f) calls
            | Except.ok dataRows =>
                ExecOutcome.mk (Except.ok (Info.mk (DataOut.rows dataRows)
                  dataRows.length
                  (pyStrListOfStrings (calls.map (fun c => c.sql))))) calls

/-- `execute` including the initial `metadata()` step: when `metadata()`
terminates with a failure (for example from `relations`), no data query
is ever issued. -/
def executeRun
    (mdResult : Except Failure
      (Metadata × PyDict (PyDict FilterContent) × PyDict (PyDict FilterContent)))
    (resp : DataResponses) : ExecOutcome :=
  match mdResult with
  | Except.error f => ExecOutcome.mk (Except.error f) []
  | Except.ok m => executeFromMetadata m.1 m.2.1 m.2.2 resp

/-! ### `orion_node.py`: `mute_node`, `unmanage_node`, discovery polling

The vendor client's `invoke` results are parameters; Ansible's
`fail_json` / `exit_json` and an uncaught exception are the outcome
constructors.  `localOffset` is the host's local timezone (minutes east
of UTC), used by the no-argument `astimezone()` calls and for naive
datetimes. -/

/-- Python truthiness of a scalar. -/
def PyVal.truthy : PyVal → Bool
  | .str s => !(s = "")
  | .int n => !(n = 0)
  | .bool b => b
  | .none => false

/-- Python `int(x)` for the values a status column can hold;
`Option.none` models the raised `ValueError`/`TypeError`. -/
def pyToInt : PyVal → Option Int
  | .int n => Option.some n
  | .bool b => Option.some (if b then 1 else 0)
  | .str s =>
      if !(s.data.isEmpty) && natDigits s.data then
        Option.some (digitsToNat s.data : Nat)
      else Option.none
  | .none => Option.none

/-- How one module operation ended. -/
inductive ModuleOutcome where
  | ret (changed : Bool) (msg : Option String)
  | exitJson (changed : Bool)
  | failJson (msg : String)
  | uncaught (msg : String)
deriving DecidableEq, Repr

/-- `OrionNode.mute_node` (lines 1170–1218).  Returns the outcome and
whether the `SuppressAlerts` invoke was issued.  The
`GetAlertSuppressionState` invoke (`getSupp`) is not inside any `try`,
so its exception propagates uncaught; `SuppressAlerts` (`suppress`) is
wrapped and fails via `fail_json`. -/
def mute_node (localOffset : Int) (now : PyDateTime)
    (params_from params_until : Option String) (node : Row)
    (getSupp : Except String (List Row))
    (suppress : Except String Unit) : ModuleOutcome × Bool :=
  let fromDtE : Except String PyDateTime :=
    match params_from with
    | Option.some s =>
        match fromisoformat s with
        | Option.some dt => Except.ok dt
        | Option.none => Except.error "ValueError: invalid isoformat string"
    | Option.none => Except.ok now
  let untilDtE : Except String PyDateTime :=
    match params_until with
    | Option.some s =>
        match fromisoformat s with
        | Option.some dt => Except.ok dt
        | Option.none => Except.error "ValueError: invalid isoformat string"
    | Option.none => Except.ok now.addOneDay
  match fromDtE, untilDtE with
  | Except.error e, _ => (ModuleOutcome.uncaught e, false)
  | _, Except.error e => (ModuleOutcome.uncaught e, false)
  | Except.ok fromDt0, Except.ok untilDt0 =>
    let fromDt := fromDt0.astimezone localOffset localOffset
    let untilDt := untilDt0.astimezone localOffset localOffset
    match pyGet node "uri" with
    | Option.none => (ModuleOutcome.uncaught "KeyError: uri", false)
    | Option.some _ =>
      match getSupp with
      | Except.error e => (ModuleOutcome.uncaught e, false)
      | Except.ok supps =>
        match supps.head? with
        | Option.none =>
            (ModuleOutcome.uncaught "list index out of range", false)
        | Option.some suppressed =>
          match pyGet suppressed "SuppressedFrom",
              pyGet suppressed "SuppressedUntil" with
          | Option.none, _ =>
              (ModuleOutcome.uncaught "KeyError: SuppressedFrom", false)
          | _, Option.none =>
              (ModuleOutcome.uncaught "KeyError: SuppressedUntil", false)
          | Option.some sFrom, Option.some sUntil =>
            let pFrom := (params_from.map PyVal.str).getD PyVal.none
            let pUntil := (params_until.map PyVal.str).getD PyVal.none
            if sFrom = pFrom ∧ sUntil = pUntil then
              (ModuleOutcome.ret false Option.none, false)
            else
              match suppress with
              | Except.error ex =>
                  (ModuleOutcome.failJson ("Failed to mute node: " ++ ex),
                    true)
              | Except.ok _ =>
                  (ModuleOutcome.ret true (Option.some
                    ("Node will be muted from " ++
                      (fromDt.astimezone localOffset
                        localOffset).isoformatMinutes ++
                      " until " ++
                      (untilDt.astimezone localOffset
                        localOffset).isoformatMinutes)), true)

/-- `OrionNode.unmanage_node` (lines 1127–1168).  Returns the outcome and
whether the `Unmanage` invoke was issued.  On an already-unmanaged node
whose stored `unmanage_from`/`unmanage_until` equal the isoformat of the
requested datetimes, the module exits with `changed=False` before any
invoke. -/
def unmanage_node (localOffset : Int) (now : PyDateTime)
    (params_from params_until : Option String) (node : Row)
    (unmanage : Except String Unit) : ModuleOutcome × Bool :=
  let fromDtE : Except String PyDateTime :=
    match params_from with
    | Option.some s =>
        match fromisoformat s with
        | Option.some dt => Except.ok dt
        | Option.none => Except.error "ValueError: invalid isoformat string"
    | Option.none => Except.ok now
  let untilDtE : Except String PyDateTime :=
    match params_until with
    | Option.some s =>
        match fromisoformat s with
        | Option.some dt => Except.ok dt
        | Option.none => Except.error "ValueError: invalid isoformat string"
    | Option.none => Except.ok now.addOneDay
  match fromDtE, untilDtE with
  | Except.error e, _ => (ModuleOutcome.uncaught e, false)
  | _, Except.error e => (ModuleOutcome.uncaught e, false)
  | Except.ok fromDt, Except.ok untilDt =>
    match pyGet node "unmanaged" with
    | Option.none => (ModuleOutcome.uncaught "KeyError: unmanaged", false)
    | Option.some unmanagedVal =>
      let idempotent :=
        if unmanagedVal.truthy then
          match pyGet node "unmanage_from" with
          | Option.none => Except.error "KeyError: unmanage_from"
          | Option.some nFrom =>
            if nFrom = PyVal.str fromDt.isoformat then
              match pyGet node "unmanage_until" with
              | Option.none => Except.error "KeyError: unmanage_until"
              | Option.some nUntil =>
                  Except.ok (nUntil = PyVal.str untilDt.isoformat : Bool)
            else Except.ok false
        else Except.ok false
      match idempotent with
      | Except.error e => (ModuleOutcome.uncaught e, false)
      | Except.ok true => (ModuleOutcome.exitJson false, false)
      | Except.ok false =>
        match pyGet node "netobject_id" with
        | Option.none =>
            (ModuleOutcome.uncaught "KeyError: netobject_id", false)
        | Option.some _ =>
          match unmanage with
          | Except.error ex =>
              (ModuleOutcome.failJson ("Failed to unmanage node: " ++ ex),
                true)
          | Except.ok _ =>
              (ModuleOutcome.ret true (Option.some
                ("Node will be unmanaged from " ++
                  (fromDt.astimezone localOffset
                    localOffset).isoformatMinutes ++
                  " until " ++
                  (untilDt.astimezone localOffset
                    localOffset).isoformatMinutes)), true)

def DISCOVERY_STATUS_CHECK_RETRIES : Nat := 60

def DISCOVERY_RETRY_SLEEP_SECS : Nat := 3

def ORION_DISCOVERY_JOB_STATUS_FINISHED : Int := 2

def ORION_DISCOVERY_JOB_STATUS_ERROR : Int := 3

def ORION_DISCOVERY_JOB_STATUS_NOT_COMPLETED : Int := 6

def ORION_DISCOVERY_JOB_STATUS_CANCELING : Int := 7

inductive PollOutcome where
  | finished
  | timeout (msg : String)
  | queryFail (msg : String)
  | uncaught (msg : String)
deriving DecidableEq, Repr

/-- A run of the discovery polling loop: how it ended, how many status
queries were issued and how many `sleep(DISCOVERY_RETRY_SLEEP_SECS)`
calls were made. -/
structure PollTrace where
  outcome : PollOutcome
  checks : Nat
  sleeps : Nat
deriving DecidableEq, Repr

/-- A status response that neither raised nor produces an uncaught
conversion error: `ok` with no rows, or a first row whose `Status`
converts with `int()`. -/
def statusRespOk : Except String (List Row) → Bool
  | Except.ok [] => true
  | Except.ok (row :: _) =>
      match pyGet row "Status" with
      | Option.some v => (pyToInt v).isSome
      | Option.none => false
  | Except.error _ => false

/-- Whether the first status row stops the loop: `discovery_active`
becomes false on an empty result set or a terminal status; a missing or
non-convertible `Status` raises. -/
def pollTerminal (rows : List Row) : Except String Bool :=
  match rows.head? with
  | Option.none => Except.ok true
  | Option.some row =>
    match pyGet row "Status" with
    | Option.none => Except.error "KeyError: Status"
    | Option.some v =>
      match pyToInt v with
      | Option.none => Except.error "ValueError: int()"
      | Option.some st =>
          Except.ok (st = ORION_DISCOVERY_JOB_STATUS_FINISHED ∨
            st = ORION_DISCOVERY_JOB_STATUS_ERROR ∨
            st = ORION_DISCOVERY_JOB_STATUS_NOT_COMPLETED ∨
            st = ORION_DISCOVERY_JOB_STATUS_CANCELING : Bool)

/-- The body of the `while discovery_active` loop of
`OrionNode.discover_node` (lines 645–680): `statuses k` is the response
to the `k`-th status query; `iter` is `discovery_iter`. -/
def discoverPollAux (statuses : Nat → Except String (List Row))
    (k : Nat) (iter : Nat) : PollTrace :=
  match statuses k with
  | Except.error ex =>
      PollTrace.mk (PollOutcome.queryFail
        ("Failed to query node discovery status: " ++ ex)) 1 0
  | Except.ok rows =>
    match pollTerminal rows with
    | Except.error e => PollTrace.mk (PollOutcome.uncaught e) 1 0
    | Except.ok true => PollTrace.mk PollOutcome.finished 1 0
    | Except.ok false =>
      if DISCOVERY_STATUS_CHECK_RETRIES ≤ iter + 1 then
        PollTrace.mk (PollOutcome.timeout
          "Timeout while waiting for node discovery job to terminate") 1 0
      else
        let t := discoverPollAux statuses (k + 1) (iter + 1)
        PollTrace.mk t.outcome (t.checks + 1) (t.sleeps + 1)
termination_by DISCOVERY_STATUS_CHECK_RETRIES - iter
decreasing_by simp only [DISCOVERY_STATUS_CHECK_RETRIES] at *; omega

/-- The polling phase of `discover_node`, from `discovery_active = True`,
`discovery_iter = 0`. -/
def discover_poll (statuses : Nat → Except String (List Row)) : PollTrace :=
  discoverPollAux statuses 0 0

/-! ### Concrete scenarios for the `execute` theorems -/

/-- Metadata for a base `Orion.Nodes` with supplemental `Orion.Volumes`
and `Orion.AgentManagement.Agent`, one-column key joins. -/
def c4md : Metadata :=
  Metadata.mk
    ["Orion.Nodes", "Orion.Volumes", "Orion.AgentManagement.Agent"]
    [("Orion.Nodes", "o_n"), ("Orion.Volumes", "o_v"),
      ("Orion.AgentManagement.Agent", "o_a_m_a")]
    "Orion.Nodes"
    [("Orion.Nodes", ["NodeID"]), ("Orion.Volumes", ["NodeID"]),
      ("Orion.AgentManagement.Agent", ["NodeID"])]
    []
    ["Orion.Volumes", "Orion.AgentManagement.Agent"]
    [("Orion.Nodes", ["NodeID", "Caption"]),
      ("Orion.Volumes", ["VolumeID"]),
      ("Orion.AgentManagement.Agent", ["AgentID"])]
    [("Orion.Nodes",
      [("NodeID", "System.Int32"), ("Caption", "System.String")])]
    [("Orion.Volumes",
      RelRow.mk "Orion.Nodes" "Orion.Volumes" ["NodeID"] ["NodeID"]),
     ("Orion.AgentManagement.Agent",
      RelRow.mk "Orion.Nodes" "Orion.AgentManagement.Agent" ["NodeID"]
        ["NodeID"])]

def c4baseRows : List Row :=
  [[("NodeID", PyVal.int 1), ("Caption", PyVal.str "alpha")],
   [("NodeID", PyVal.int 2), ("Caption", PyVal.str "beta")]]

def c4volRows : List Row :=
  [[("VolumeID", PyVal.int 11), ("NodeID", PyVal.int 1)],
   [("VolumeID", PyVal.int 12), ("NodeID", PyVal.int 2)]]

def c4agentRows : List Row :=
  [[("AgentID", PyVal.int 21), ("NodeID", PyVal.int 1)]]

def c4resp : DataResponses :=
  DataResponses.mk (Except.ok (Option.some c4baseRows))
    (fun t =>
      if t = "Orion.Volumes" then Except.ok (Option.some c4volRows)
      else if t = "Orion.AgentManagement.Agent" then
        Except.ok (Option.some c4agentRows)
      else Except.error "unexpected table")

/-- The same scenario restricted to the single supplemental table
`Orion.Volumes`. -/
def c4mdOne : Metadata :=
  Metadata.mk
    ["Orion.Nodes", "Orion.Volumes"]
    [("Orion.Nodes", "o_n"), ("Orion.Volumes", "o_v")]
    "Orion.Nodes"
    [("Orion.Nodes", ["NodeID"]), ("Orion.Volumes", ["NodeID"])]
    []
    ["Orion.Volumes"]
    [("Orion.Nodes", ["NodeID", "Caption"]),
      ("Orion.Volumes", ["VolumeID"])]
    [("Orion.Nodes",
      [("NodeID", "System.Int32"), ("Caption", "System.String")])]
    [("Orion.Volumes",
      RelRow.mk "Orion.Nodes" "Orion.Volumes" ["NodeID"] ["NodeID"])]

/-- Metadata for a base-table-only query with a `System.String` include
filter on `Caption` (scenario for C2). -/
def c2md : Metadata :=
  Metadata.mk
    ["Orion.Nodes"]
    [("Orion.Nodes", "o_n")]
    "Orion.Nodes"
    [("Orion.Nodes", [])]
    []
    []
    [("Orion.Nodes", ["NodeID", "Caption"])]
    [("Orion.Nodes",
      [("NodeID", "System.Int32"), ("Caption", "System.String")])]
    []

/-- The include filter `Caption: s` for the C2 scenario. -/
def c2incl (s : String) : PyDict (PyDict FilterContent) :=
  [("Orion.Nodes", [("Caption", FilterContent.scalar (PyVal.str s))])]

def c2resp : DataResponses :=
  DataResponses.mk (Except.ok (Option.some []))
    (fun _ => Except.error "unexpected table")

theorem isPre_append_self (n rest : List Char) :
    isPre n (n ++ rest) = true := by
  induction n with
  | nil => rfl
  | cons a t ih => simpa [isPre] using ih

theorem infixB_cons (n t : List Char) (a : Char) (h : infixB n t = true) :
    infixB n (a :: t) = true := by
  simp [infixB, h]

theorem infixB_nil (l : List Char) : infixB [] l = true := by
  induction l with
  | nil => rfl
  | cons a t ih => simp [infixB, ih]

theorem infixB_append_middle (pre n post : List Char) :
    infixB n (pre ++ n ++ post) = true := by
  induction pre with
  | nil =>
    cases n with
    | nil => exact infixB_nil post
    | cons a t =>
      show (isPre (a :: t) ((a :: t) ++ post) || infixB (a :: t) (t ++ post)) = true
      rw [isPre_append_self]
      rfl
  | cons b bs ih =>
    show infixB n (b :: (bs ++ n ++ post)) = true
    exact infixB_cons n (bs ++ n ++ post) b ih

theorem strContains_of_append (pre n post : String) :
    strContains (pre ++ n ++ post) n = true := by
  have h : (pre ++ n ++ post).data = pre.data ++ n.data ++ post.data := by
    simp
  simpa [strContains, h] using infixB_append_middle pre.data n.data post.data

theorem sep_lookup (kw : String) :
    pyGet SQLQueryBuilder.separators kw =
      (if kw = "WHERE" ∨ kw = "HAVING" then Option.some "AND" else Option.none) := by
  by_cases h1 : kw = "WHERE"
  · subst h1; decide
  · by_cases h2 : kw = "HAVING"
    · subst h2; decide
    · simp [pyGet, SQLQueryBuilder.separators, Ne.symm h1, Ne.symm h2, h1, h2]

/-- C9: when a `SQLQueryBuilder` is rendered, consecutive non-keyword
items under `WHERE` or `HAVING` are joined as `item AND`, items under
every other keyword get `,` appended directly, no separator follows the
last item of a clause, and a keyword whose item list is empty contributes
nothing to the output. -/
theorem c9_builder_rendering (kw : String) (things : List Thing)
    (flag : String) (rest : SQLQueryBuilder.Data)
    (hnk : ∀ t ∈ things, t.keyword = "") :
    SQLQueryBuilder.partsKeyword kw things = partsKeywordSpec kw things ∧
    SQLQueryBuilder.parts ((kw, FlagList.mk flag []) :: rest) =
      SQLQueryBuilder.parts rest := by
  constructor
  · induction things with
    | nil => rfl
    | cons t ts ih =>
      cases ts with
      | nil =>
        have ht : t.keyword = "" := hnk t (by simp)
        simp [SQLQueryBuilder.partsKeyword, partsKeywordSpec, ht]
      | cons t2 rest2 =>
        have ht : t.keyword = "" := hnk t (by simp)
        have ih' := ih (fun x hx => hnk x (List.mem_cons_of_mem _ hx))
        by_cases hc : kw = "WHERE" ∨ kw = "HAVING"
        · simp [SQLQueryBuilder.partsKeyword, partsKeywordSpec, ht, ih',
            sep_lookup, hc, String.append_assoc]
        · simp [SQLQueryBuilder.partsKeyword, partsKeywordSpec, ht, ih',
            sep_lookup, hc, SQLQueryBuilder.default_separator]
  · simp [SQLQueryBuilder.parts]

/-- Witness for C9 at a concrete `WHERE` clause with two items and a
concrete empty clause. -/
theorem c9_builder_rendering_witness :
    SQLQueryBuilder.partsKeyword "WHERE"
        [Thing.mk "(x = 1)" "" "", Thing.mk "(y = 2)" "" ""] =
      partsKeywordSpec "WHERE"
        [Thing.mk "(x = 1)" "" "", Thing.mk "(y = 2)" "" ""] ∧
    SQLQueryBuilder.parts [("ORDER BY", FlagList.mk "" [])] =
      SQLQueryBuilder.parts [] :=
  c9_builder_rendering "WHERE"
    [Thing.mk "(x = 1)" "" "", Thing.mk "(y = 2)" "" ""] "" []
    (by decide)

/-- C7: a table name equal, ignoring case, to one of the six defined
aliases is replaced by the corresponding vendor entity name; a name
matching no alias is stored unchanged; and the include/exclude/columns
setters apply the same replacement to each input table key. -/
theorem c7_alias_resolution :
    (∀ (t a v : String), (a, v) ∈ SolarWindsEntityAlias →
        pyLower a = pyLower t → base_table_setter t = v) ∧
    (∀ t : String, (∀ av ∈ SolarWindsEntityAlias, pyLower av.1 ≠ pyLower t) →
        base_table_setter t = t) ∧
    (∀ {α : Type} (t : String) (x : α),
        input_include_setter [(t, x)] = [(base_table_setter t, x)] ∧
        input_exclude_setter [(t, x)] = [(base_table_setter t, x)] ∧
        input_columns_setter [(t, x)] = [(base_table_setter t, x)]) := by
  refine ⟨?_, ?_, ?_⟩
  · intro t a v hmem hlow
    simp only [SolarWindsEntityAlias, List.mem_cons, List.not_mem_nil,
      or_false, Prod.mk.injEq] at hmem
    rcases hmem with ⟨ha, hv⟩ | ⟨ha, hv⟩ | ⟨ha, hv⟩ | ⟨ha, hv⟩ | ⟨ha, hv⟩ |
      ⟨ha, hv⟩ <;> subst ha <;> subst hv <;>
      simp only [base_table_setter, from_alias_case_insensitive,
        SolarWindsEntityAlias] <;> rw [← hlow] <;> rfl
  · intro t ht
    have hfil : SolarWindsEntityAlias.filter
        (fun m => pyLower m.1 = pyLower t) = [] := by
      rw [List.filter_eq_nil_iff]
      intro a ha
      simpa using ht a ha
    simp [base_table_setter, from_alias_case_insensitive, hfil]
  · intro α t x
    refine ⟨rfl, rfl, rfl⟩

/-- Witness for C7: a cased alias is replaced, a non-alias is kept, and a
setter rewrites its table key. -/
theorem c7_alias_resolution_witness :
    base_table_setter "NODES" = "Orion.Nodes" ∧
    base_table_setter "Foo.Bar" = "Foo.Bar" ∧
    input_include_setter [("volumes", (42 : Nat))] =
      [(base_table_setter "volumes", 42)] :=
  ⟨c7_alias_resolution.1 "NODES" "Nodes" "Orion.Nodes" (by decide) (by decide),
   c7_alias_resolution.2.1 "Foo.Bar" (by decide),
   (c7_alias_resolution.2.2 "volumes" 42).1⟩

/-- C3: the source computes `re.match(criterion, "[0-9]+")` — criterion
as the *pattern*, `"[0-9]+"` as the *text* — so for `System.Int16` /
`System.Int32` columns the all-digit string criterion `"123"` is
rejected (`column_filters` returns `False`), while the non-digit
criterion `"."` is accepted, both contrary to the claim; an integer
criterion is accepted as the claim states. -/
theorem c3_int_filter_swapped_re_args :
    column_filters "System.Int16" (FilterContent.scalar (PyVal.str "123")) =
      CFResult.invalid ∧
    column_filters "System.Int32" (FilterContent.scalar (PyVal.str "123")) =
      CFResult.invalid ∧
    column_filters "System.Int16" (FilterContent.scalar (PyVal.str ".")) =
      CFResult.valid [("=", PyVal.str ".")] ∧
    column_filters "System.Int16" (FilterContent.scalar (PyVal.int 7)) =
      CFResult.valid [("=", PyVal.int 7)] := by
  exact ⟨by decide, by decide, by decide, by decide⟩

/-- C8: for a `System.Boolean` column, a boolean criterion maps to
`('=', criterion)`; a string criterion equal, ignoring case, to
yes/on/true maps to `('=', True)`; one equal to no/off/false maps to
`('=', False)`; every other string criterion is rejected. -/
theorem c8_boolean_filters (b : Bool) (s : String) :
    column_filters "System.Boolean" (FilterContent.scalar (PyVal.bool b)) =
      CFResult.valid [("=", PyVal.bool b)] ∧
    ((pyLower s = "yes" ∨ pyLower s = "on" ∨ pyLower s = "true") →
      column_filters "System.Boolean" (FilterContent.scalar (PyVal.str s)) =
        CFResult.valid [("=", PyVal.bool true)]) ∧
    ((pyLower s = "no" ∨ pyLower s = "off" ∨ pyLower s = "false") →
      column_filters "System.Boolean" (FilterContent.scalar (PyVal.str s)) =
        CFResult.valid [("=", PyVal.bool false)]) ∧
    (pyLower s ≠ "yes" → pyLower s ≠ "on" → pyLower s ≠ "true" →
     pyLower s ≠ "no" → pyLower s ≠ "off" → pyLower s ≠ "false" →
      column_filters "System.Boolean" (FilterContent.scalar (PyVal.str s)) =
        CFResult.invalid) := by
  have hsc : strContains "System.Boolean" "System.Boolean" = true := rfl
  refine ⟨?_, ?_, ?_, ?_⟩
  · cases b <;> decide
  · intro h
    rcases h with h | h | h <;>
      simp [column_filters, cfCriteria, h, allCFTypes, strCFTypes, hsc,
        PyVal.isStr]
  · intro h
    rcases h with h | h | h <;>
      simp [column_filters, cfCriteria, h, allCFTypes, strCFTypes, hsc,
        PyVal.isStr]
  · intro h1 h2 h3 h4 h5 h6
    simp [column_filters, cfCriteria, h1, h2, h3, h4, h5, h6, allCFTypes,
      strCFTypes, hsc, PyVal.isStr]

/-- Witness for C8 at concrete criteria. -/
theorem c8_boolean_filters_witness :
    column_filters "System.Boolean" (FilterContent.scalar (PyVal.bool true)) =
      CFResult.valid [("=", PyVal.bool true)] ∧
    column_filters "System.Boolean" (FilterContent.scalar (PyVal.str "On")) =
      CFResult.valid [("=", PyVal.bool true)] ∧
    column_filters "System.Boolean" (FilterContent.scalar (PyVal.str "FALSE")) =
      CFResult.valid [("=", PyVal.bool false)] ∧
    column_filters "System.Boolean" (FilterContent.scalar (PyVal.str "nope")) =
      CFResult.invalid :=
  ⟨(c8_boolean_filters true "x").1,
   (c8_boolean_filters true "On").2.1 (by decide),
   (c8_boolean_filters true "FALSE").2.2.1 (by decide),
   (c8_boolean_filters true "nope").2.2.2 (by decide) (by decide) (by decide)
     (by decide) (by decide) (by decide)⟩

/-- C4: evaluation of `execute`'s reassembly at a two-supplemental-table
input.  The final nesting loop reads the stale `suppl_table` variable
(the last table of the indexing loop) instead of `joined_table`, so the
`Orion.Volumes` rows are never nested anywhere — there is no `Volumes`
key in any output row — and the only nested list sits under the last
table's name.  With a single supplemental table the two variables
coincide and the nesting is exactly as the claim describes. -/
theorem c4_stale_variable_nesting :
    (executeFromMetadata c4md [] [] c4resp).result.map Info.data =
      Except.ok (DataOut.rows
        [[("NodeID", JVal.prim (PyVal.int 1)),
          ("Caption", JVal.prim (PyVal.str "alpha")),
          ("Agents", JVal.table [[("AgentID", PyVal.int 21)]])],
         [("NodeID", JVal.prim (PyVal.int 2)),
          ("Caption", JVal.prim (PyVal.str "beta"))]]) ∧
    (executeFromMetadata c4mdOne [] [] c4resp).result.map Info.data =
      Except.ok (DataOut.rows
        [[("NodeID", JVal.prim (PyVal.int 1)),
          ("Caption", JVal.prim (PyVal.str "alpha")),
          ("Volumes", JVal.table [[("VolumeID", PyVal.int 11)]])],
         [("NodeID", JVal.prim (PyVal.int 2)),
          ("Caption", JVal.prim (PyVal.str "beta")),
          ("Volumes", JVal.table [[("VolumeID", PyVal.int 12)]])]]) := by
  exact ⟨by decide, by decide⟩

/-- C2 counterexample: with the include filter `Caption: "x"` on the
`System.String` column `Caption`, the single query sent to the client
carries no bound parameters and the criterion appears literally (quoted)
inside the SQL text. -/
theorem c2_counterexample_literal_sql :
    (executeFromMetadata c2md (c2incl "x") [] c2resp).calls.map
        (fun c => c.params) = [[]] ∧
    (executeFromMetadata c2md (c2incl "x") [] c2resp).calls.map
        (fun c => strContains c.sql "LIKE 'x'") = [true] := by
  exact ⟨by decide, by decide⟩

theorem processSuppl_params (md : Metadata) (resp : DataResponses)
    (baseRows : List Row) :
    ∀ (ts : List String) (calls : List ClientCall) (idx : PyDict TupIndex),
      (∀ c ∈ calls, c.params = []) →
      ∀ c ∈ (processSuppl md resp baseRows ts calls idx).1, c.params = [] := by
  intro ts
  induction ts with
  | nil =>
    intro calls idx h c hc
    exact h c hc
  | cons t rest ih =>
    intro calls idx h c hc
    have hext : ∀ (q : SQLQueryBuilder.Data),
        ∀ x ∈ calls ++ [ClientCall.mk (SQLQueryBuilder.render q) []],
          x.params = [] := by
      intro q x hx
      rcases List.mem_append.mp hx with hx | hx
      · exact h x hx
      · simp only [List.mem_singleton] at hx
        rw [hx]
    simp only [processSuppl] at hc
    split at hc
    · exact h c hc
    · split at hc
      · exact h c hc
      · split at hc
        · exact hext _ c hc
        · exact hext _ c hc
        · split at hc
          · exact hext _ c hc
          · exact ih _ _ (hext _) c hc

/-- C2 as the code actually behaves: a `System.String` filter criterion
is wrapped in single quotes and spliced verbatim into the filter value
(and from there into the query text), and every query `execute` sends to
the client carries an empty bound-parameter list. -/
theorem c2_amended_literal_interpolation (s : String) :
    column_filters "System.String" (FilterContent.scalar (PyVal.str s)) =
      CFResult.valid [("LIKE", PyVal.str ("'" ++ s ++ "'"))] ∧
    (∀ (md : Metadata) (incl excl : PyDict (PyDict FilterContent))
        (resp : DataResponses) (c : ClientCall),
      c ∈ (executeFromMetadata md incl excl resp).calls → c.params = []) := by
  constructor
  · rfl
  · intro md incl excl resp c hc
    have hsingle : ∀ (q : SQLQueryBuilder.Data),
        ∀ x ∈ [ClientCall.mk (SQLQueryBuilder.render q) []], x.params = [] := by
      intro q x hx
      simp only [List.mem_singleton] at hx
      rw [hx]
    simp only [executeFromMetadata] at hc
    split at hc
    · exact absurd hc (by simp)
    · rename_i q hq
      split at hc
      · exact hsingle _ c hc
      · exact hsingle _ c hc
      · rename_i baseRows hbr
        split at hc
        · exact hsingle _ c hc
        · rename_i basePcols hpc
          split at hc
          · rename_i calls2 f hps
            have h2 := processSuppl_params md resp baseRows
              (List.filter (fun t => dictHasKey md.projected_columns t &&
                dictHasKey md.relations t) md.suppl_tables)
              [ClientCall.mk (SQLQueryBuilder.render q) []] [] (hsingle _)
            rw [hps] at h2
            exact h2 c hc
          · rename_i calls2 idx hps
            have h2 := processSuppl_params md resp baseRows
              (List.filter (fun t => dictHasKey md.projected_columns t &&
                dictHasKey md.relations t) md.suppl_tables)
              [ClientCall.mk (SQLQueryBuilder.render q) []] [] (hsingle _)
            rw [hps] at h2
            split at hc
            · exact h2 c hc
            · split at hc
              · exact h2 c hc
              · exact h2 c hc

/-- Witness for C2's amended statement at a concrete criterion and the
concrete call of the scenario query. -/
theorem c2_amended_witness :
    column_filters "System.String" (FilterContent.scalar (PyVal.str "x")) =
      CFResult.valid [("LIKE", PyVal.str "'x'")] ∧
    (ClientCall.mk
      "SELECT o_n.NodeID, o_n.Caption FROM Orion.Nodes AS o_n WHERE (o_n.Caption LIKE 'x')"
      []).params = [] :=
  ⟨(c2_amended_literal_interpolation "x").1,
   (c2_amended_literal_interpolation "x").2 c2md (c2incl "x") [] c2resp
     (ClientCall.mk
       "SELECT o_n.NodeID, o_n.Caption FROM Orion.Nodes AS o_n WHERE (o_n.Caption LIKE 'x')"
       [])
     (by decide)⟩

theorem infixB_append_left (pre n t : List Char) (h : infixB n t = true) :
    infixB n (pre ++ t) = true := by
  induction pre with
  | nil => simpa using h
  | cons a as ih => exact infixB_cons n (as ++ t) a ih

theorem strContains_append_left (a b n : String)
    (h : strContains b n = true) : strContains (a ++ b) n = true := by
  have hd : (a ++ b).data = a.data ++ b.data := by simp
  simpa [strContains, hd] using infixB_append_left a.data n.data b.data h

theorem joinComma_mem_shape (l : List String) (u : String) (hu : u ∈ l) :
    ∃ pre post, joinComma l = pre ++ u ++ post := by
  induction l with
  | nil => cases hu
  | cons a t ih =>
    rcases List.mem_cons.mp hu with h | h
    · subst h
      cases t with
      | nil => exact ⟨"", "", by simp [joinComma]⟩
      | cons b bs =>
          exact ⟨"", ", " ++ joinComma (b :: bs),
            by simp [joinComma, String.append_assoc]⟩
    · rcases ih h with ⟨pre, post, hshape⟩
      cases t with
      | nil => cases h
      | cons b bs =>
          exact ⟨a ++ ", " ++ pre, post,
            by simp [joinComma, hshape, String.append_assoc]⟩

theorem pyStrList_contains (l : List String) (u : String) (hu : u ∈ l) :
    strContains (pyStrListOfStrings l) ("'" ++ u ++ "'") = true := by
  rcases joinComma_mem_shape (l.map (fun s => "'" ++ s ++ "'"))
      ("'" ++ u ++ "'") (List.mem_map_of_mem _ hu) with ⟨pre, post, h⟩
  have hshape : pyStrListOfStrings l =
      ("[" ++ pre) ++ ("'" ++ u ++ "'") ++ (post ++ "]") := by
    calc pyStrListOfStrings l
        = "[" ++ joinComma (l.map (fun s => "'" ++ s ++ "'")) ++ "]" := rfl
      _ = "[" ++ (pre ++ ("'" ++ u ++ "'") ++ post) ++ "]" := by rw [h]
      _ = ("[" ++ pre) ++ ("'" ++ u ++ "'") ++ (post ++ "]") := by
            simp [String.append_assoc]
  rw [hshape]
  exact strContains_of_append ("[" ++ pre) ("'" ++ u ++ "'") (post ++ "]")

theorem dictHasKey_dictSet {α : Type} (d : PyDict α) (k u : String) (v : α) :
    dictHasKey (dictSet d k v) u = (dictHasKey d u || decide (k = u)) := by
  unfold dictSet
  by_cases hemp : (d.filter (fun p => p.1 = k)).isEmpty
  · simp only [hemp, if_true]
    by_cases hk : k = u <;>
      simp [dictHasKey, List.filter_append, hk]
  · simp only [hemp, Bool.false_eq_true, if_false]
    have hmap : ∀ (l : PyDict α),
        ((l.map (fun p => if p.1 = k then (k, v) else p)).filter
          (fun p => p.1 = u)).isEmpty =
        (l.filter (fun p => p.1 = u)).isEmpty := by
      intro l
      induction l with
      | nil => rfl
      | cons a t ih =>
        by_cases h : a.1 = k
        · by_cases h2 : k = u
          · have ha : a.1 = u := by rw [h, h2]
            simp [h, h2, ha, ih]
          · have ha : ¬(a.1 = u) := by rw [h]; exact h2
            simp [h, h2, ha, ih]
        · by_cases h2 : a.1 = u
          · have huk : ¬(u = k) := by rw [← h2]; exact h
            simp [h, h2, huk, ih]
          · simp [h, h2, ih]
    have hm2 : dictHasKey (d.map (fun p => if p.1 = k then (k, v) else p)) u =
        dictHasKey d u := by
      unfold dictHasKey
      rw [hmap d]
    rw [hm2]
    by_cases hk : k = u
    · subst hk
      have hkk : dictHasKey d k = true := by
        unfold dictHasKey
        cases hh : (List.filter (fun p => decide (p.1 = k)) d).isEmpty
        · rfl
        · exact absurd hh hemp
      simp [hkk]
    · simp [hk]

theorem relFold_hasKey (rows : List RelRow) (u : String) :
    ∀ d, dictHasKey (rows.foldl (fun d r => dictSet d r.TargetType r) d) u =
      (dictHasKey d u || rows.any (fun r => decide (r.TargetType = u))) := by
  induction rows with
  | nil => intro d; simp
  | cons r rest ih =>
    intro d
    simp [List.foldl_cons, ih, dictHasKey_dictSet, Bool.or_assoc]

/-- C6: when the relationship metadata has no row keyed (by `TargetType`)
to some supplemental table, `relations` terminates with a `fail_json`
failure whose message names the base table and every such unmatched
table; and a failure arising before the data stage means `execute`
issues no data query at all. -/
theorem c6_unmatched_relations (base : String) (suppl : List String)
    (rows : List RelRow) (t : String) (ht : t ∈ suppl)
    (hno : ∀ r ∈ rows, ¬(r.TargetType = t)) :
    ∃ msg,
      relations base suppl (Except.ok rows) = Except.error msg ∧
      strContains msg base = true ∧
      (∀ u ∈ suppl, (∀ r ∈ rows, ¬(r.TargetType = u)) →
        strContains msg ("'" ++ u ++ "'") = true) ∧
      (∀ resp : DataResponses,
        (executeRun (Except.error (Failure.failJson msg)) resp).calls = []) := by
  have hne : suppl.isEmpty = false := by
    cases suppl with
    | nil => cases ht
    | cons a l => rfl
  have hmem : ∀ u ∈ suppl, (∀ r ∈ rows, ¬(r.TargetType = u)) →
      u ∈ suppl.filter (fun x =>
        !(dictHasKey (rows.foldl (fun d r => dictSet d r.TargetType r) []) x)) := by
    intro u hu hnou
    refine List.mem_filter.mpr ⟨hu, ?_⟩
    have hany : rows.any (fun r => decide (r.TargetType = u)) = false := by
      rw [List.any_eq_false]
      intro r hr
      simpa using hnou r hr
    have hkey : dictHasKey
        (rows.foldl (fun d r => dictSet d r.TargetType r) []) u = false := by
      rw [relFold_hasKey]
      simp [dictHasKey, hany]
    simp [hkey]
  have htm := hmem t ht hno
  have hUMne : (suppl.filter (fun x =>
      !(dictHasKey (rows.foldl (fun d r => dictSet d r.TargetType r) []) x))).isEmpty
      = false := by
    cases hUMe : suppl.filter (fun x =>
        !(dictHasKey (rows.foldl (fun d r => dictSet d r.TargetType r) []) x)) with
    | nil => rw [hUMe] at htm; cases htm
    | cons a l => rfl
  refine ⟨relationsFailMsg base suppl (noRelationshipMsg base
    (suppl.filter (fun x =>
      !(dictHasKey (rows.foldl (fun d r => dictSet d r.TargetType r) []) x)))),
    ?_, ?_, ?_, ?_⟩
  · unfold relations
    simp only [hne, Bool.false_eq_true, if_false, hUMne, Bool.not_false,
      if_true]
  · have hsh : relationsFailMsg base suppl (noRelationshipMsg base
        (suppl.filter (fun x =>
          !(dictHasKey (rows.foldl (fun d r => dictSet d r.TargetType r) []) x)))) =
        "Failed to retrieve table relationships between '" ++ base ++
          ("' and " ++ (pyStrListOfStrings suppl ++ (": " ++
            noRelationshipMsg base (suppl.filter (fun x =>
              !(dictHasKey (rows.foldl (fun d r => dictSet d r.TargetType r) [])
                x)))))) := by
      simp [relationsFailMsg, String.append_assoc]
    rw [hsh]
    exact strContains_of_append _ base _
  · intro u hu hnou
    have humem := hmem u hu hnou
    have h3 : strContains (noRelationshipMsg base
        (suppl.filter (fun x =>
          !(dictHasKey (rows.foldl (fun d r => dictSet d r.TargetType r) []) x))))
        ("'" ++ u ++ "'") = true := by
      unfold noRelationshipMsg
      exact strContains_append_left _ _ _ (pyStrList_contains _ u humem)
    unfold relationsFailMsg
    exact strContains_append_left _ _ _ h3
  · intro resp
    rfl

/-- Witness for C6: no relationship row at all for `Orion.Volumes`. -/
theorem c6_unmatched_relations_witness :
    ∃ msg,
      relations "Orion.Nodes" ["Orion.Volumes"] (Except.ok []) =
        Except.error msg ∧
      strContains msg "Orion.Nodes" = true ∧
      (∀ u ∈ ["Orion.Volumes"],
        (∀ r ∈ ([] : List RelRow), ¬(r.TargetType = u)) →
        strContains msg ("'" ++ u ++ "'") = true) ∧
      (∀ resp : DataResponses,
        (executeRun (Except.error (Failure.failJson msg)) resp).calls = []) :=
  c6_unmatched_relations "Orion.Nodes" ["Orion.Volumes"] [] "Orion.Volumes"
    (by decide) (by decide)

/-- C1 counterexample: in `mute_node` the `GetAlertSuppressionState`
invoke is not wrapped in any `try`, so a client exception raised there
propagates uncaught out of the operation instead of reaching
`fail_json`. -/
theorem c1_counterexample_uncaught_mute :
    mute_node 0 (PyDateTime.mk 2026 1 1 0 0 0 0 (Option.some 0))
      Option.none Option.none [("uri", PyVal.str "swis://node/1")]
      (Except.error "boom") (Except.ok ()) =
    (ModuleOutcome.uncaught "boom", false) := by decide

/-- C1 as the code actually behaves: the base query of `execute` and the
`SuppressAlerts` invoke of `mute_node` are caught at the call site and
surfaced via `fail_json` with a descriptive message, but the
`GetAlertSuppressionState` invoke of `mute_node` is unwrapped and its
exception propagates uncaught. -/
theorem c1_amended_error_handling :
    (∀ (md : Metadata) (incl excl : PyDict (PyDict FilterContent))
        (resp : DataResponses) (q : SQLQueryBuilder.Data) (ex : String),
      buildBaseQuery md incl excl = Except.ok q →
      resp.baseRes = Except.error ex →
      (executeFromMetadata md incl excl resp).result =
        Except.error (Failure.failJson
          (baseQueryFailMsg md.base_table (SQLQueryBuilder.render q) ex))) ∧
    (∀ (localOffset : Int) (now : PyDateTime) (node : Row) (uri : PyVal)
        (e : String) (supp : Except String Unit),
      pyGet node "uri" = Option.some uri →
      mute_node localOffset now Option.none Option.none node
        (Except.error e) supp = (ModuleOutcome.uncaught e, false)) ∧
    (∀ (localOffset : Int) (now : PyDateTime) (node : Row) (uri : PyVal)
        (sFrom sUntil : PyVal) (e : String),
      pyGet node "uri" = Option.some uri →
      ¬(sFrom = PyVal.none ∧ sUntil = PyVal.none) →
      mute_node localOffset now Option.none Option.none node
        (Except.ok [[("SuppressedFrom", sFrom), ("SuppressedUntil", sUntil)]])
        (Except.error e) =
      (ModuleOutcome.failJson ("Failed to mute node: " ++ e), true)) := by
  refine ⟨?_, ?_, ?_⟩
  · intro md incl excl resp q ex hbq hbr
    simp [executeFromMetadata, hbq, hbr]
  · intro localOffset now node uri e supp huri
    simp [mute_node, huri]
  · intro localOffset now node uri sFrom sUntil e huri hne
    simp only [mute_node, huri]
    simp [pyGet, hne]

set_option maxHeartbeats 2000000 in
/-- Witness for C1's amended statement at concrete inputs. -/
theorem c1_amended_error_handling_witness :
    (executeFromMetadata c2md [] []
        (DataResponses.mk (Except.error "down")
          (fun _ => Except.error "down"))).result =
      Except.error (Failure.failJson (baseQueryFailMsg "Orion.Nodes"
        "SELECT o_n.NodeID, o_n.Caption FROM Orion.Nodes AS o_n" "down")) ∧
    mute_node 0 (PyDateTime.mk 2026 1 1 0 0 0 0 (Option.some 0))
      Option.none Option.none [("uri", PyVal.str "u")]
      (Except.error "gone") (Except.ok ()) =
      (ModuleOutcome.uncaught "gone", false) ∧
    mute_node 0 (PyDateTime.mk 2026 1 1 0 0 0 0 (Option.some 0))
      Option.none Option.none [("uri", PyVal.str "u")]
      (Except.ok [[("SuppressedFrom", PyVal.str "2026-01-01"),
        ("SuppressedUntil", PyVal.none)]])
      (Except.error "denied") =
      (ModuleOutcome.failJson ("Failed to mute node: " ++ "denied"), true) :=
  ⟨c1_amended_error_handling.1 c2md [] []
      (DataResponses.mk (Except.error "down") (fun _ => Except.error "down"))
      _ "down" rfl rfl,
   c1_amended_error_handling.2.1 0 _ _ (PyVal.str "u") "gone"
      (Except.ok ()) (by decide),
   c1_amended_error_handling.2.2 0 _ _ (PyVal.str "u")
      (PyVal.str "2026-01-01") PyVal.none "denied" (by decide) (by decide)⟩

/-- C10: `unmanage_node` on a node whose `unmanaged` flag is set and
whose stored `unmanage_from` / `unmanage_until` equal the isoformat of
the requested datetimes exits immediately with `changed=False`, without
issuing the vendor `Unmanage` invoke, for any client behaviour. -/
theorem c10_unmanage_idempotent (localOffset : Int) (now : PyDateTime)
    (f u : String) (dtf dtu : PyDateTime) (node : Row)
    (unmanageResp : Except String Unit)
    (hf : fromisoformat f = Option.some dtf)
    (hu : fromisoformat u = Option.some dtu)
    (hm : pyGet node "unmanaged" = Option.some (PyVal.bool true))
    (hfrom : pyGet node "unmanage_from" =
      Option.some (PyVal.str dtf.isoformat))
    (huntil : pyGet node "unmanage_until" =
      Option.some (PyVal.str dtu.isoformat)) :
    unmanage_node localOffset now (Option.some f) (Option.some u) node
      unmanageResp = (ModuleOutcome.exitJson false, false) := by
  simp [unmanage_node, hf, hu, hm, hfrom, huntil, PyVal.truthy]

/-- Witness for C10 at a concrete node and concrete ISO timestamps. -/
theorem c10_unmanage_idempotent_witness :
    unmanage_node 0 (PyDateTime.mk 2026 1 1 0 0 0 0 (Option.some 0))
      (Option.some "2026-01-02T03:04:05") (Option.some "2026-01-03T03:04:05")
      [("unmanaged", PyVal.bool true),
       ("unmanage_from", PyVal.str "2026-01-02T03:04:05"),
       ("unmanage_until", PyVal.str "2026-01-03T03:04:05")]
      (Except.error "never called") =
    (ModuleOutcome.exitJson false, false) :=
  c10_unmanage_idempotent 0 (PyDateTime.mk 2026 1 1 0 0 0 0 (Option.some 0))
    "2026-01-02T03:04:05" "2026-01-03T03:04:05"
    (PyDateTime.mk 2026 1 2 3 4 5 0 Option.none)
    (PyDateTime.mk 2026 1 3 3 4 5 0 Option.none)
    [("unmanaged", PyVal.bool true),
     ("unmanage_from", PyVal.str "2026-01-02T03:04:05"),
     ("unmanage_until", PyVal.str "2026-01-03T03:04:05")]
    (Except.error "never called")
    (by decide) (by decide) (by decide) (by decide) (by decide)

/-- C5: with well-formed status responses, the discovery polling loop of
`discover_node` issues at most `DISCOVERY_STATUS_CHECK_RETRIES` (60)
status checks with one `DISCOVERY_RETRY_SLEEP_SECS` (3-second) sleep
between consecutive checks, and always terminates — either on a terminal
status (finished, error, not completed, canceling, or no status rows)
or by failing with the timeout message. -/
theorem c5_polling_bounded (statuses : Nat → Except String (List Row))
    (hok : ∀ k, statusRespOk (statuses k) = true) :
    DISCOVERY_STATUS_CHECK_RETRIES = 60 ∧
    DISCOVERY_RETRY_SLEEP_SECS = 3 ∧
    (discover_poll statuses).checks ≤ DISCOVERY_STATUS_CHECK_RETRIES ∧
    (discover_poll statuses).checks = (discover_poll statuses).sleeps + 1 ∧
    ((discover_poll statuses).outcome = PollOutcome.finished ∨
      (discover_poll statuses).outcome = PollOutcome.timeout
        "Timeout while waiting for node discovery job to terminate") := by
  have hterm : ∀ rows, statusRespOk (Except.ok rows) = true →
      pollTerminal rows = Except.ok true ∨
      pollTerminal rows = Except.ok false := by
    intro rows h
    cases hp : pollTerminal rows with
    | ok b =>
      cases b with
      | true => exact Or.inl rfl
      | false => exact Or.inr rfl
    | error e =>
      exfalso
      cases rows with
      | nil => simp [pollTerminal] at hp
      | cons row rest =>
        simp only [statusRespOk] at h
        cases hg : pyGet row "Status" with
        | none => rw [hg] at h; simp at h
        | some v =>
          rw [hg] at h
          simp at h
          obtain ⟨n, hv⟩ := Option.isSome_iff_exists.mp h
          simp [pollTerminal, hg, hv] at hp
  have main : ∀ (m k iter : Nat),
      DISCOVERY_STATUS_CHECK_RETRIES - iter = m → 0 < m →
      (discoverPollAux statuses k iter).checks ≤ m ∧
      (discoverPollAux statuses k iter).checks =
        (discoverPollAux statuses k iter).sleeps + 1 ∧
      ((discoverPollAux statuses k iter).outcome = PollOutcome.finished ∨
        (discoverPollAux statuses k iter).outcome = PollOutcome.timeout
          "Timeout while waiting for node discovery job to terminate") := by
    intro m
    induction m with
    | zero =>
      intro k iter _ h0
      exact absurd h0 (by omega)
    | succ m ih =>
      intro k iter hm _
      rw [discoverPollAux]
      split
      · rename_i ex hex
        have hcontra := hok k
        rw [hex] at hcontra
        simp [statusRespOk] at hcontra
      · rename_i rows hrows
        have hok2 := hok k
        rw [hrows] at hok2
        split
        · rename_i e he
          rcases hterm rows hok2 with hb | hb <;> rw [hb] at he <;>
            exact Except.noConfusion he
        · exact ⟨Nat.succ_le_succ (Nat.zero_le m), rfl, Or.inl rfl⟩
        · split
          · exact ⟨Nat.succ_le_succ (Nat.zero_le m), rfl, Or.inr rfl⟩
          · rename_i hlt
            have h60 : DISCOVERY_STATUS_CHECK_RETRIES = 60 := rfl
            rw [h60] at hm hlt
            have hm2 : DISCOVERY_STATUS_CHECK_RETRIES - (iter + 1) = m := by
              rw [h60]
              omega
            have hpos2 : 0 < m := by omega
            have hrec := ih (k + 1) (iter + 1) hm2 hpos2
            exact ⟨Nat.succ_le_succ hrec.1,
              congrArg (fun x => x + 1) hrec.2.1, hrec.2.2⟩
  have h60 : DISCOVERY_STATUS_CHECK_RETRIES - 0 = 60 := rfl
  have := main 60 0 0 h60 (by omega)
  exact ⟨rfl, rfl, by simpa [DISCOVERY_STATUS_CHECK_RETRIES, discover_poll]
    using this.1, this.2.1, this.2.2⟩

/-- Witness for C5 with a client that always reports no status rows. -/
theorem c5_polling_bounded_witness :
    DISCOVERY_STATUS_CHECK_RETRIES = 60 ∧
    DISCOVERY_RETRY_SLEEP_SECS = 3 ∧
    (discover_poll (fun _ => Except.ok [])).checks ≤
      DISCOVERY_STATUS_CHECK_RETRIES ∧
    (discover_poll (fun _ => Except.ok [])).checks =
      (discover_poll (fun _ => Except.ok [])).sleeps + 1 ∧
    ((discover_poll (fun _ => Except.ok [])).outcome =
        PollOutcome.finished ∨
      (discover_poll (fun _ => Except.ok [])).outcome = PollOutcome.timeout
        "Timeout while waiting for node discovery job to terminate") :=
  c5_polling_bounded (fun _ => Except.ok []) (fun _ => rfl)

end SolarWinds
